import Mathlib

/-!
# InfoRay service worker: cache, backoff caller, response parser, message handler

A shallow embedding of `src/service_worker.js`.

* A JavaScript string is a sequence of UTF-16 code units.  It is modelled as a
  `List Char`.  A character of the Basic Multilingual Plane is one `Char` and one code
  unit; a character outside it is one `Char` in the model and two code units (a
  surrogate pair) in JavaScript.  Lengths and indices of the model count `Char`s, so the
  model is exact for text of the Basic Multilingual Plane and only there.
* `Date.now()` is an integer number of milliseconds; it is read from the
  environment of each run.
* `chrome.storage.local` is a map from keys to the entries `saveToCache` writes.
* Effects (storage access, notifications, HTTP requests, timers) are recorded in an
  event trace, in program order; console output is not recorded.
* The runs of the asynchronous handler are sequential: a request is handled to completion
  before the next one starts.
-/

namespace InfoRay

/-! ## Data model -/

/-- A JavaScript string.  Each `Char` stands for one UTF-16 code unit, which is exact for
characters of the Basic Multilingual Plane; a character outside it is a single `Char`
here and two code units in JavaScript, so indices agree with JavaScript on text of the
Basic Multilingual Plane only. -/
abbrev JsString := List Char

/-- The object `{score, summary}` produced by `generateScore` and kept in the cache. -/
structure ScoreData where
  score : Int
  summary : JsString
  deriving DecidableEq, Repr

/-- The object `{data, timestamp}` that `saveToCache` stores under a key. -/
structure CacheEntry where
  data : ScoreData
  timestamp : Int
  deriving DecidableEq, Repr

/-- The content of `chrome.storage.local`: the entry held under each key, if any. -/
abbrev Store := JsString → Option CacheEntry

/-- The empty storage area. -/
def Store.empty : Store := fun _ => none

/-- The effect of `chrome.storage.local.set({[key]: entry})`: the entry under `key` is
replaced, every other key is untouched. -/
def Store.set (store : Store) (key : JsString) (entry : CacheEntry) : Store :=
  fun k => if k = key then some entry else store k

/-! ## 1. Caching (lines 10-48) -/

/-- The constant `CACHE_PREFIX = 'cc_score_'`. -/
def CACHE_PREFIX : JsString := "cc_score_".toList

/-- The constant `CACHE_LIFETIME_MS = 24 * 60 * 60 * 1000`. -/
def CACHE_LIFETIME_MS : Int := 24 * 60 * 60 * 1000

/-- The function `getFromCache(url)`, with the storage content and the value of
`Date.now()` made explicit.  `none` is JavaScript `null`. -/
def getFromCache (store : Store) (now : Int) (url : JsString) : Option ScoreData :=
  let key := CACHE_PREFIX ++ url
  match store key with
  | some cachedData =>
    if now - cachedData.timestamp < CACHE_LIFETIME_MS then some cachedData.data else none
  | none => none

/-- The function `saveToCache(url, scoreData)`, with the storage content and the value of
`Date.now()` made explicit.  `writeOk = false` is a rejected `chrome.storage.local.set`,
which the `try/catch` logs and swallows. -/
def saveToCache (store : Store) (now : Int) (writeOk : Bool) (url : JsString)
    (scoreData : ScoreData) : Store :=
  let key := CACHE_PREFIX ++ url
  let data : CacheEntry := { data := scoreData, timestamp := now }
  if writeOk then store.set key data else store

/-! ## String primitives -/

/-- The characters matched by `\s` in a regular expression and removed by `trim()`:
ECMAScript WhiteSpace and LineTerminator. -/
def isWhiteSpace (c : Char) : Bool :=
  let n := c.toNat
  n = 0x09 || n = 0x0A || n = 0x0B || n = 0x0C || n = 0x0D || n = 0x20 || n = 0xA0 ||
  n = 0x1680 || (0x2000 ≤ n && n ≤ 0x200A) || n = 0x2028 || n = 0x2029 || n = 0x202F ||
  n = 0x205F || n = 0x3000 || n = 0xFEFF

/-- ECMAScript LineTerminator: the characters that `.` does not match. -/
def isLineTerminator (c : Char) : Bool :=
  let n := c.toNat
  n = 0x0A || n = 0x0D || n = 0x2028 || n = 0x2029

/-- The characters matched by `\d`. -/
def isDigit (c : Char) : Bool := 48 ≤ c.toNat && c.toNat ≤ 57

/-- The method `s.trim()`. -/
def trim (s : JsString) : JsString :=
  ((s.dropWhile isWhiteSpace).reverse.dropWhile isWhiteSpace).reverse

/-- The method `s.split(sep)` for a one-character separator. -/
def split (sep : Char) : JsString → List JsString
  | [] => [[]]
  | c :: cs =>
    if c = sep then [] :: split sep cs
    else match split sep cs with
      | [] => [[c]]
      | l :: ls => (c :: l) :: ls

/-- One character of `toLowerCase()`, as a sequence of code units.  ASCII capitals map to
their small letters and U+0130 (capital I with dot above) maps to the two code units
`i`, U+0307; it is the only character whose lower case has another length.  Every other
character stands for its own lower case: no other character has an ASCII letter of
`"summary:"` or `"error"` as lower case, so searches for these tokens are unaffected. -/
def lowerChar (c : Char) : List Char :=
  if 65 ≤ c.toNat ∧ c.toNat ≤ 90 then [Char.ofNat (c.toNat + 32)]
  else if c.toNat = 0x130 then ['i', Char.ofNat 0x307]
  else [c]

/-- The method `s.toLowerCase()`. -/
def toLowerCase (s : JsString) : JsString := s.flatMap lowerChar

/-- The method `s.lastIndexOf(tok)`; `none` is the result `-1`. -/
def lastIndexOf (tok : JsString) : JsString → Option Nat
  | [] => if tok = [] then some 0 else none
  | c :: cs =>
    match lastIndexOf tok cs with
    | some i => some (i + 1)
    | none => if tok.isPrefixOf (c :: cs) then some 0 else none

/-- The method `s.includes(tok)`. -/
def includes (tok : JsString) : JsString → Bool
  | [] => tok.isEmpty
  | c :: cs => tok.isPrefixOf (c :: cs) || includes tok cs

/-- The call `parseInt(ds, 10)` on a non-empty string of decimal digits.  The JavaScript number is
this value when it is below 2^53 and a rounded value, still above 100, otherwise; the
clamp `Math.min(100, score)` gives the same result for both. -/
def parseInt (ds : JsString) : Nat :=
  ds.foldl (fun n c => 10 * n + (c.toNat - 48)) 0

/-! ## The two regular expressions of `generateScore` -/

/-- Case-insensitive match of one pattern letter (given as a capital) under the `i` flag
without the `u` flag: only the two ASCII forms of the letter match. -/
def matchLetter (p c : Char) : Bool := c = p || c.toNat = p.toNat + 32

/-- Matches the capital-letter word `label` case-insensitively at the start of `s` and
returns what follows it. -/
def matchLabel : List Char → JsString → Option JsString
  | [], s => some s
  | _ :: _, [] => none
  | p :: ps, c :: cs => if matchLetter p c then matchLabel ps cs else none

/-- The pattern `SCORE\s*:\s*(\d+)` anchored at the start of `s`: the captured digits.
Both `\s*` and `\d+` are greedy, and no shorter choice can lead to a match since `:` is
not white space and a digit is not white space. -/
def scoreAt (s : JsString) : Option JsString :=
  match matchLabel "SCORE".toList s with
  | none => none
  | some r =>
    match r.dropWhile isWhiteSpace with
    | ':' :: r2 =>
      let ds := (r2.dropWhile isWhiteSpace).takeWhile isDigit
      if ds.isEmpty then none else some ds
    | _ => none

/-- The call `line.match(/SCORE\s*:\s*(\d+)/i)`: capture group 1 of the leftmost match. -/
def scoreMatch : JsString → Option JsString
  | [] => none
  | c :: cs =>
    match scoreAt (c :: cs) with
    | some ds => some ds
    | none => scoreMatch cs

/-- The pattern `SUMMARY\s*:\s*(.*)$` anchored at the start of `s`: the captured text.
After the greedy `\s*` the group `(.*)` has to reach the end of the input, which it does
exactly when no line terminator is left; giving back white space cannot help. -/
def summaryAt (s : JsString) : Option JsString :=
  match matchLabel "SUMMARY".toList s with
  | none => none
  | some r =>
    match r.dropWhile isWhiteSpace with
    | ':' :: r2 =>
      let rest := r2.dropWhile isWhiteSpace
      if rest.all (fun c => !isLineTerminator c) then some rest else none
    | _ => none

/-- The call `line.match(/SUMMARY\s*:\s*(.*)$/i)`: capture group 1 of the leftmost
match. -/
def summaryMatch : JsString → Option JsString
  | [] => summaryAt []
  | c :: cs =>
    match summaryAt (c :: cs) with
    | some t => some t
    | none => summaryMatch cs

/-! ## Response parsing (lines 318-349 of `generateScore`) -/

/-- The diagnostics written while parsing. -/
inductive ParseLog where
  | devJsonParsed
  | devJsonFailed
  | formatError
  deriving DecidableEq, Repr

/-- The lines kept by `text.trim().split('\n').filter(line => line.trim().length > 0)`. -/
def nonBlankLines (text : JsString) : List JsString :=
  (split '\n' (trim text)).filter (fun line => decide ((trim line).length > 0))

/-- The value `lines[0] || ""`. -/
def plainTextLine (text : JsString) : JsString := (nonBlankLines text).headD []

/-- The value `jsonLine`: the first line that starts with `{` and ends with `}` once
trimmed, looked for only when there are at least two lines. -/
def jsonLine (text : JsString) : Option JsString :=
  let lines := nonBlankLines text
  if lines.length > 1 then
    lines.find? (fun line => (trim line).head? = some '{' && (trim line).getLast? = some '}')
  else none

/-- The summary extraction of lines 328-332.  The index is counted in `Char`s: on a
summary that holds both U+0130 and a character outside the Basic Multilingual Plane the
JavaScript `substring` can cut a surrogate pair, which the model does not represent. -/
def extractSummary (captured : JsString) : JsString :=
  let summary := trim captured
  match lastIndexOf "summary:".toList (toLowerCase summary) with
  | some lastSummaryIndex => trim (summary.drop (lastSummaryIndex + "summary:".toList.length))
  | none => summary

/-- The result returned when the first line does not have the required format. -/
def formatErrorResult : ScoreData :=
  { score := 0,
    summary := "Analysis format error. Detailed analysis could not be completed. (LLM Format)".toList }

/-- The parsing block of `generateScore` (lines 318-349) for a non-empty `text`.
`jsonParse` tells whether `JSON.parse` accepts a line.  Returns the result and the
diagnostics logged. -/
def parseResponse (jsonParse : JsString → Bool) (text : JsString) : ScoreData × List ParseLog :=
  let line := plainTextLine text
  match scoreMatch line, summaryMatch line with
  | some ds, some captured =>
    let score : Int := parseInt ds
    let summary := extractSummary captured
    let finalScore := max 0 (min 100 score)
    let log :=
      match jsonLine text with
      | some j => if jsonParse j then [ParseLog.devJsonParsed] else [ParseLog.devJsonFailed]
      | none => []
    ({ score := finalScore, summary := summary }, log)
  | _, _ => (formatErrorResult, [ParseLog.formatError])

/-! ## Effects -/

/-- The two scoring policies: which system prompt and query template the payload carries. -/
inductive Policy where
  | news
  | article
  deriving DecidableEq, Repr

/-- The payload sent to the scoring service.  The prompt texts are constants of the source;
the payload is represented by the policy that selects them and by the values interpolated
into the user query. -/
structure Payload where
  policy : Policy
  url : JsString
  title : JsString
  description : JsString
  externalFactCheckData : Option JsString
  deriving DecidableEq, Repr

/-- The rendering hint built by `createBadgeSvg`: the fill colour and the text of the
badge (`none` is the text `X`).  The SVG markup and its base64 encoding are not
modelled. -/
structure Badge where
  fill : JsString
  label : Option Int
  deriving DecidableEq, Repr

/-- The observable effects of the service worker, recorded in program order.  Console
output is not recorded. -/
inductive Event where
  /-- The call `chrome.storage.local.get(key)`. -/
  | storageGet (key : JsString)
  /-- The call `chrome.storage.local.set({[key]: entry})`, whether or not it succeeds. -/
  | storageSet (key : JsString) (entry : CacheEntry)
  /-- The message `SHOW_LOADING` handed to `chrome.tabs.sendMessage`. -/
  | showLoading (id : JsString)
  /-- The message `INJECT_BADGE` handed to `chrome.tabs.sendMessage`. -/
  | injectBadge (id : JsString) (score : Int) (reasoningSummary : JsString) (badgeUrl : Badge)
  /-- The request of `callFactCheckApi` to the Fact Check Tools service. -/
  | factCheckRequest (url : JsString)
  /-- One `fetch(modelUrl, ...)` of `callApiWithRetry`. -/
  | apiRequest (modelUrl : JsString) (payload : Payload)
  /-- One `setTimeout` wait of `callApiWithRetry`, in milliseconds. -/
  | sleep (ms : Nat)
  deriving DecidableEq, Repr

/-- The requests made to an external service: the fact-check lookup and the scoring
calls. -/
def Event.isExternalCall : Event → Bool
  | .factCheckRequest _ => true
  | .apiRequest _ _ => true
  | _ => false

/-- The requests made to the scoring service. -/
def Event.isApiRequest : Event → Bool
  | .apiRequest _ _ => true
  | _ => false

/-- The writes to the cache. -/
def Event.isStorageSet : Event → Bool
  | .storageSet _ _ => true
  | _ => false

/-- The final notifications. -/
def Event.isInjectBadge : Event → Bool
  | .injectBadge _ _ _ _ => true
  | _ => false

/-- The waits of a trace, in order. -/
def sleeps : List Event → List Nat
  | [] => []
  | .sleep ms :: es => ms :: sleeps es
  | _ :: es => sleeps es

/-- The errors raised inside the service worker. -/
inductive JsError where
  /-- An error raised by the platform (`fetch`, `response.json()`, a property read on
  `undefined`); its message is produced by the browser and does not start with
  `[API ERROR]`. -/
  | external
  /-- The error of line 77, `[API ERROR] HTTP Status: ...`. -/
  | apiError (status : Nat)
  /-- The error of line 88, `[API CRITICAL ERROR] API call failed after all retries.` -/
  | apiCriticalError
  /-- The error of line 296, `Unsupported resultType. Cannot generate score.` -/
  | unsupportedResultType
  /-- The error of line 315, `Empty response from Gemini API.` -/
  | emptyResponse
  /-- The error of line 353, `API analysis failed after all retries.` -/
  | analysisFailed
  deriving DecidableEq, Repr

/-- The test `error.message.startsWith('[API ERROR]')`. -/
def JsError.isApiError : JsError → Bool
  | .apiError _ => true
  | _ => false

/-! ## 2. API caller (lines 60-89) -/

/-- The JSON body of a response of the scoring service.  Only the value reached by
`candidates?.[0]?.content?.parts?.[0]?.text` is kept; `none` stands for `undefined`. -/
structure ApiBody where
  text : Option JsString
  deriving DecidableEq, Repr

/-- What one `fetch` meets: the promise rejects (network error), or a response arrives
with a status and a body; `body = none` is a body that `response.json()` cannot read. -/
inductive FetchOutcome where
  | networkError
  | response (status : Nat) (body : Option ApiBody)
  deriving DecidableEq, Repr

/-- The property `response.ok`: the status is in the range 200-299. -/
def responseOk (status : Nat) : Bool := 200 ≤ status && status ≤ 299

/-- How the `try` block of one loop iteration (lines 63-79) ends. -/
inductive TryResult where
  /-- The statement `return await response.json()`. -/
  | returned (body : ApiBody)
  /-- The wait of line 75 is done and the block ends normally. -/
  | slept
  /-- An error reaches the `catch`. -/
  | threw (error : JsError)
  deriving DecidableEq, Repr

/-- The `try` block of one loop iteration (lines 63-79). -/
def tryAttempt : FetchOutcome → TryResult
  | .networkError => .threw .external
  | .response status body =>
    if responseOk status then
      match body with
      | some json => .returned json
      | none => .threw .external
    else
      match body with
      | none => .threw .external
      | some _ =>
        if status = 429 || status ≥ 500 then .slept
        else .threw (.apiError status)

/-- The loop of `callApiWithRetry` from iteration `i` on, with `remaining` iterations
left (`remaining = maxRetries - i`).  `fetchAt i` is what the fetch of iteration `i`
meets. -/
def retryLoop (fetchAt : Nat → FetchOutcome) (payload : Payload) (modelUrl : JsString)
    (delay : Nat) : (remaining : Nat) → (i : Nat) → Except JsError ApiBody × List Event
  | 0, _ => (.error .apiCriticalError, [])
  | remaining + 1, i =>
    let request := Event.apiRequest modelUrl payload
    let wait := Event.sleep (delay * 2 ^ i)
    match tryAttempt (fetchAt i) with
    | .returned json => (.ok json, [request])
    | .slept =>
      let next := retryLoop fetchAt payload modelUrl delay remaining (i + 1)
      (next.1, request :: wait :: next.2)
    | .threw error =>
      if error.isApiError then (.error error, [request])
      else
        let next := retryLoop fetchAt payload modelUrl delay remaining (i + 1)
        (next.1, request :: wait :: next.2)

/-- The function `callApiWithRetry(payload, modelUrl, maxRetries, delay)`: its result and
the requests and waits it makes. -/
def callApiWithRetry (fetchAt : Nat → FetchOutcome) (payload : Payload) (modelUrl : JsString)
    (maxRetries : Nat) (delay : Nat) : Except JsError ApiBody × List Event :=
  retryLoop fetchAt payload modelUrl delay maxRetries 0

/-- What the request of `callFactCheckApi` meets. -/
inductive FactCheckOutcome where
  /-- The fetch, the reading of the body or the formatting of a claim raises. -/
  | exception
  /-- A response with `response.ok` false. -/
  | notOk (status : Nat)
  /-- A response with a non-empty `claims` array; `claimsSummary` is the joined text of
  the formatted claims. -/
  | claims (claimsSummary : JsString)
  /-- A response without claims. -/
  | noClaims
  deriving DecidableEq, Repr

/-- The function `callFactCheckApi(url)`: it always returns a digest string. -/
def callFactCheckApi (outcome : FactCheckOutcome) (url : JsString) : JsString × List Event :=
  let digest : JsString :=
    match outcome with
    | .exception =>
      "EXTERNAL_FACT_CHECK_ERROR: An exception occurred during Fact Check Tools API processing.".toList
    | .notOk _ =>
      "EXTERNAL_FACT_CHECK_ERROR: Fact Check Tools API call failed or returned empty. Reliance on Gemini's search grounding is increased.".toList
    | .claims claimsSummary => "EXTERNAL_FACT_CHECK_DATA:\n".toList ++ claimsSummary
    | .noClaims =>
      "EXTERNAL_FACT_CHECK_DATA: No pre-existing fact-check claims were found for this URL/article.".toList
  (digest, [Event.factCheckRequest url])

/-- The function `getScoreColor(score)`. -/
def getScoreColor (score : Int) : JsString :=
  if score ≥ 70 then "#10B981".toList
  else if score ≥ 40 then "#F59E0B".toList
  else "#EF4444".toList

/-- The function `createBadgeSvg(score)`. -/
def createBadgeSvg (score : Int) : Badge :=
  { fill := getScoreColor score, label := if score ≥ 0 then some score else none }

/-! ## 3. Core logic (lines 149-355) -/

/-- What happens to a message given to `chrome.tabs.sendMessage`. -/
inductive SendOutcome where
  /-- The message reaches the content script. -/
  | delivered
  /-- The call itself raises, for instance because `sender.tab` is undefined. -/
  | threw
  /-- The call returns and the message cannot be delivered (the tab is closed or has no
  listener).  The platform reports this after the call, through the callback and
  `chrome.runtime.lastError` (as lines 409-413 read it) or through the returned promise;
  the call does not raise. -/
  | undelivered
  deriving DecidableEq, Repr

/-- What the environment does during one run of the message handler. -/
structure Env where
  /-- The value of `Date.now()` read by `getFromCache`. -/
  lookupTime : Int
  /-- The value of `Date.now()` read by `saveToCache`. -/
  saveTime : Int
  /-- The fate of the `SHOW_LOADING` message. -/
  loading : SendOutcome
  /-- What the fact-check request meets. -/
  factCheck : FactCheckOutcome
  /-- What the fetch of each loop iteration of `callApiWithRetry` meets. -/
  fetchAt : Nat → FetchOutcome
  /-- Whether `JSON.parse` accepts a line. -/
  jsonParse : JsString → Bool
  /-- Whether `chrome.storage.local.set` succeeds. -/
  writeOk : Bool
  /-- The fate of the `INJECT_BADGE` message. -/
  badge : SendOutcome

/-- The constant `geminiApiUrl` (the API key is the empty string). -/
def geminiApiUrl : JsString :=
  "https://generativelanguage.googleapis.com/v1beta/models/gemini-2.5-flash-preview-05-20:generateContent?key=".toList

/-- The `try/catch` of `generateScore` (lines 310-354): the scoring call, the check of
the response text and the parsing.  Every error is replaced by `analysisFailed`. -/
def scoreWithPayload (env : Env) (payload : Payload) : Except JsError ScoreData × List Event :=
  let call := callApiWithRetry env.fetchAt payload geminiApiUrl 5 2000
  match call.1 with
  | .error _ => (.error .analysisFailed, call.2)
  | .ok responseJson =>
    match responseJson.text with
    | none => (.error .analysisFailed, call.2)
    | some text =>
      if text.isEmpty then (.error .analysisFailed, call.2)
      else (.ok (parseResponse env.jsonParse text).1, call.2)

/-- The function `generateScore(url, title, description, resultType)`: its result and the
external requests and waits it makes. -/
def generateScore (env : Env) (url title description resultType : JsString) :
    Except JsError ScoreData × List Event :=
  if resultType = "news".toList then
    let lookup := callFactCheckApi env.factCheck url
    let scored := scoreWithPayload env
      { policy := .news, url := url, title := title, description := description,
        externalFactCheckData := some lookup.1 }
    (scored.1, lookup.2 ++ scored.2)
  else if resultType = "article".toList then
    scoreWithPayload env
      { policy := .article, url := url, title := title, description := description,
        externalFactCheckData := none }
  else (.error .unsupportedResultType, [])

/-! ## 4. Message listener (lines 359-421) -/

/-- The field `request.data` of an `ANALYZE_RESULT` message. -/
structure Request where
  id : JsString
  title : JsString
  url : JsString
  description : JsString
  resultType : JsString
  deriving DecidableEq, Repr

/-- How a run of the handler ends. -/
inductive Outcome where
  /-- The `INJECT_BADGE` message was handed over. -/
  | notifiedFinal
  /-- The `return` of line 381, after the `SHOW_LOADING` call raised. -/
  | abandoned
  /-- The outer `catch` of line 415 caught and logged the error. -/
  | failed (error : JsError)
  /-- The message is not of type `ANALYZE_RESULT`; the listener returns `false`. -/
  | ignored
  deriving DecidableEq, Repr

/-- The result of a run of the handler. -/
structure HandlerResult where
  store : Store
  trace : List Event
  outcome : Outcome

/-- The condition of line 388 under which a fresh result is saved. -/
def shouldCache (scoreData : ScoreData) : Bool :=
  decide (scoreData.score > 0) && !(includes "error".toList (toLowerCase scoreData.summary))

/-- Lines 394-413: the badge is built and the `INJECT_BADGE` message is sent. -/
def sendFinal (env : Env) (store : Store) (trace : List Event) (id : JsString)
    (scoreData : ScoreData) : HandlerResult :=
  let badgeUrl := createBadgeSvg scoreData.score
  match env.badge with
  | .threw => { store := store, trace := trace, outcome := .failed .external }
  | _ =>
    { store := store,
      trace := trace ++ [Event.injectBadge id scoreData.score scoreData.summary badgeUrl],
      outcome := .notifiedFinal }

/-- The asynchronous body of the listener for a message of type `ANALYZE_RESULT`
(lines 364-418), run to completion from the storage content `store`. -/
def analyzeResult (env : Env) (store : Store) (request : Request) : HandlerResult :=
  let key := CACHE_PREFIX ++ request.url
  let trace0 := [Event.storageGet key]
  match getFromCache store env.lookupTime request.url with
  | some scoreData => sendFinal env store trace0 request.id scoreData
  | none =>
    match env.loading with
    | .threw => { store := store, trace := trace0, outcome := .abandoned }
    | _ =>
      let trace1 := trace0 ++ [Event.showLoading request.id]
      let generated :=
        generateScore env request.url request.title request.description request.resultType
      let trace2 := trace1 ++ generated.2
      match generated.1 with
      | .error error => { store := store, trace := trace2, outcome := .failed error }
      | .ok scoreData =>
        if shouldCache scoreData then
          let saved := saveToCache store env.saveTime env.writeOk request.url scoreData
          let write := Event.storageSet key { data := scoreData, timestamp := env.saveTime }
          sendFinal env saved (trace2 ++ [write]) request.id scoreData
        else
          sendFinal env store trace2 request.id scoreData

/-- A message received by the listener. -/
structure Message where
  type : JsString
  data : Request

/-- The listener of `chrome.runtime.onMessage`: messages of another type are ignored. -/
def onMessage (env : Env) (store : Store) (message : Message) : HandlerResult :=
  if message.type ≠ "ANALYZE_RESULT".toList then
    { store := store, trace := [], outcome := .ignored }
  else analyzeResult env store message.data

/-- A sequence of requests handled one after the other, each in its own environment: the
storage content left at the end and the events of all runs, in order. -/
def analyzeAll : Store → List (Env × Request) → Store × List Event
  | store, [] => (store, [])
  | store, (env, request) :: rest =>
    let first := analyzeResult env store request
    let later := analyzeAll first.store rest
    (later.1, first.trace ++ later.2)

/-- Two requests handled one after the other: the second run starts from the storage
content the first run leaves. -/
def analyzeTwice (env1 env2 : Env) (store : Store) (request1 request2 : Request) :
    HandlerResult × HandlerResult :=
  let first := analyzeResult env1 store request1
  (first, analyzeResult env2 first.store request2)

/-! ## Vocabulary of the properties -/

/-- A retryable failure of one attempt: a network exception, HTTP 429 or HTTP 500 and
above. -/
def FetchOutcome.isRetryableFailure : FetchOutcome → Bool
  | .networkError => true
  | .response status _ => status = 429 || status ≥ 500

/-- The pattern `SUMMARY\s*:\s*(.*)` as the specification writes it, without the end
anchor `$` of line 323, at the start of `s`: the label, optional white space and a colon;
the group `(.*)` may capture nothing. -/
def summaryPatternAt (s : JsString) : Bool :=
  match matchLabel "SUMMARY".toList s with
  | none => false
  | some r =>
    match r.dropWhile isWhiteSpace with
    | ':' :: _ => true
    | _ => false

/-- Whether a line matches the pattern `SUMMARY\s*:\s*(.*)` of the specification at some
position. -/
def matchesSummaryPattern : JsString → Bool
  | [] => false
  | c :: cs => summaryPatternAt (c :: cs) || matchesSummaryPattern cs

/-- The waits made between requests: the waits of a trace that come after its first
request and before its last request. -/
def sleepsBetweenRequests (trace : List Event) : List Nat :=
  sleeps (((trace.dropWhile (fun e => !e.isApiRequest)).reverse.dropWhile
    (fun e => !e.isApiRequest)).reverse)

/-- The decimal value of a string of digits, most significant digit first. -/
def decimalValue (ds : JsString) : Nat :=
  Nat.ofDigits 10 (ds.reverse.map (fun c => c.toNat - 48))

/-- The cache invariant: every entry holds a score between 1 and 100 and a summary whose
lower case does not contain `error`. -/
def CacheInvariant (store : Store) : Prop :=
  ∀ key entry, store key = some entry →
    1 ≤ entry.data.score ∧ entry.data.score ≤ 100 ∧
    includes "error".toList (toLowerCase entry.data.summary) = false

/-- The events of a call that meets `failures` retryable failures from iteration `first`
on and then a success: a request and a wait of `delay * 2 ^ i` for each failed iteration
`i`, then the request that succeeds. -/
def backoffTrace (modelUrl : JsString) (payload : Payload) (delay first failures : Nat) :
    List Event :=
  (List.range' first failures).flatMap
      (fun i => [Event.apiRequest modelUrl payload, Event.sleep (delay * 2 ^ i)]) ++
    [Event.apiRequest modelUrl payload]

/-! ## Sample inputs -/

/-- A store holding one entry for `https://a.example`, written at time 1000. -/
def sampleStore : Store :=
  Store.empty.set ("cc_score_https://a.example".toList)
    { data := { score := 72, summary := "ok".toList }, timestamp := 1000 }

/-- A request of the news category for `https://a.example`. -/
def sampleRequest : Request :=
  { id := "news-0".toList, title := "t".toList, url := "https://a.example".toList,
    description := "d".toList, resultType := "news".toList }

/-- A payload of the news policy. -/
def samplePayload : Payload :=
  { policy := .news, url := "https://a.example".toList, title := "t".toList,
    description := "d".toList, externalFactCheckData := none }

/-- An environment in which every notification is delivered, the storage write succeeds
and the scoring service answers every request with HTTP 200 and the given text. -/
def answeringEnv (lookupTime saveTime : Int) (text : JsString) : Env :=
  { lookupTime := lookupTime, saveTime := saveTime, loading := .delivered,
    factCheck := .noClaims,
    fetchAt := fun _ => .response 200 (some { text := some text }),
    jsonParse := fun _ => false, writeOk := true, badge := .delivered }

/-- The environment of `answeringEnv` with a `SHOW_LOADING` message that cannot be
delivered: the tab was closed, the call returns and the failure is reported afterwards. -/
def closedTabEnv (lookupTime saveTime : Int) (text : JsString) : Env :=
  { answeringEnv lookupTime saveTime text with loading := .undelivered }

/-- An environment in which every notification is delivered and every attempt of the
scoring call is answered with HTTP 503. -/
def unavailableEnv (lookupTime saveTime : Int) : Env :=
  { lookupTime := lookupTime, saveTime := saveTime, loading := .delivered,
    factCheck := .noClaims, fetchAt := fun _ => .response 503 none,
    jsonParse := fun _ => false, writeOk := true, badge := .delivered }

/-- An environment in which the scoring service answers the first two attempts with
HTTP 429 and a network exception and the third with HTTP 200 and the given text. -/
def recoveringEnv (text : JsString) : Env :=
  { answeringEnv 1000 2000 text with
    fetchAt := fun i =>
      if i = 0 then .response 429 none
      else if i = 1 then .networkError
      else .response 200 (some { text := some text }) }

/-- What the attempts of a call meet when the first answer is HTTP 200 with a body that
is not JSON and every later answer is HTTP 200 with a readable body of the given text. -/
def unreadableThenReadable (text : JsString) : Nat → FetchOutcome :=
  fun i => if i = 0 then .response 200 none else .response 200 (some { text := some text })

end InfoRay

namespace InfoRay

/-! ## Cache -/

/-- An entry younger than the cache lifetime is returned by `getFromCache`. -/
theorem getFromCache_fresh (store : Store) (now : Int) (url : JsString) (e : CacheEntry)
    (he : store (CACHE_PREFIX ++ url) = some e) (hlt : now - e.timestamp < 86400000) :
    getFromCache store now url = some e.data := by
  have hL : CACHE_LIFETIME_MS = 86400000 := by decide
  simp only [getFromCache, he, hL]
  simp [hlt]

/-- C1: `getFromCache(url)` returns the stored data exactly when the store holds an entry
under `'cc_score_' + url` whose age `now - timestamp` is below 86,400,000 ms; it returns
null when there is no entry or when the age is at least 24h, in particular at exactly
24h. -/
theorem getFromCache_ttl (store : Store) (now : Int) (url : JsString) :
    (∀ e, store ("cc_score_".toList ++ url) = some e → now - e.timestamp < 86400000 →
        getFromCache store now url = some e.data) ∧
    (store ("cc_score_".toList ++ url) = none → getFromCache store now url = none) ∧
    (∀ e, store ("cc_score_".toList ++ url) = some e → now - e.timestamp ≥ 86400000 →
        getFromCache store now url = none) ∧
    (∀ e, store ("cc_score_".toList ++ url) = some e → now = e.timestamp + 86400000 →
        getFromCache store now url = none) := by
  have hL : CACHE_LIFETIME_MS = 86400000 := by decide
  refine ⟨?_, ?_, ?_, ?_⟩
  · intro e he hlt
    exact getFromCache_fresh store now url e he hlt
  · intro hn
    simp only [getFromCache, CACHE_PREFIX, hn]
  · intro e he hge
    simp only [getFromCache, CACHE_PREFIX, he, hL]
    have : ¬ (now - e.timestamp < 86400000) := by omega
    simp [this]
  · intro e he heq
    simp only [getFromCache, CACHE_PREFIX, he, hL]
    have : ¬ (now - e.timestamp < 86400000) := by omega
    simp [this]

/-- C1 at a concrete store: an entry aged 24h less one millisecond is returned, and at
exactly 24h it is not. -/
theorem getFromCache_ttl_witness :
    getFromCache sampleStore 86400999 "https://a.example".toList
        = some { score := 72, summary := "ok".toList } ∧
    getFromCache sampleStore 86401000 "https://a.example".toList = none := by
  refine ⟨?_, ?_⟩
  · exact (getFromCache_ttl sampleStore 86400999 "https://a.example".toList).1
      { data := { score := 72, summary := "ok".toList }, timestamp := 1000 }
      (by decide) (by decide)
  · exact (getFromCache_ttl sampleStore 86401000 "https://a.example".toList).2.2.2
      { data := { score := 72, summary := "ok".toList }, timestamp := 1000 }
      (by decide) (by decide)

/-! ## Backoff caller -/

/-- One loop iteration that meets a retryable failure makes a request, waits
`delay * 2 ^ i` and goes on with the next iteration. -/
theorem retryLoop_retryable (fetchAt : Nat → FetchOutcome) (payload : Payload)
    (modelUrl : JsString) (delay remaining i : Nat)
    (h : (fetchAt i).isRetryableFailure = true) :
    retryLoop fetchAt payload modelUrl delay (remaining + 1) i =
      ((retryLoop fetchAt payload modelUrl delay remaining (i + 1)).1,
        Event.apiRequest modelUrl payload :: Event.sleep (delay * 2 ^ i) ::
          (retryLoop fetchAt payload modelUrl delay remaining (i + 1)).2) := by
  cases hf : fetchAt i with
  | networkError => simp [retryLoop, hf, tryAttempt, JsError.isApiError]
  | response status body =>
    rw [hf] at h
    simp only [FetchOutcome.isRetryableFailure, Bool.or_eq_true, decide_eq_true_eq] at h
    have hok : responseOk status = false := by
      simp only [responseOk, Bool.and_eq_false_iff, decide_eq_false_iff_not]
      omega
    cases body with
    | none => simp [retryLoop, hf, tryAttempt, hok, JsError.isApiError]
    | some b =>
      have hs : (status = 429 ∨ status ≥ 500) := h
      simp [retryLoop, hf, tryAttempt, hok, hs]

/-- C8: with `maxRetries = 5` and `delay = 2000`, when each of the five attempts meets a
retryable failure (network exception, HTTP 429 or HTTP 500 and above), exactly five
requests are made, the waits between them are 2000, 4000, 8000 and 16000 ms, and the call
ends with `[API CRITICAL ERROR] API call failed after all retries.`  The trace is given
in full: the loop waits once more, 32000 ms, after the fifth attempt and before the
error. -/
theorem callApiWithRetry_exhausted (fetchAt : Nat → FetchOutcome) (payload : Payload)
    (modelUrl : JsString)
    (h : ∀ i, i < 5 → (fetchAt i).isRetryableFailure = true) :
    (callApiWithRetry fetchAt payload modelUrl 5 2000).1 = .error .apiCriticalError ∧
    ((callApiWithRetry fetchAt payload modelUrl 5 2000).2.filter Event.isApiRequest).length
      = 5 ∧
    sleepsBetweenRequests (callApiWithRetry fetchAt payload modelUrl 5 2000).2 =
      [2000, 4000, 8000, 16000] ∧
    (callApiWithRetry fetchAt payload modelUrl 5 2000).2 =
      [ Event.apiRequest modelUrl payload, Event.sleep 2000,
        Event.apiRequest modelUrl payload, Event.sleep 4000,
        Event.apiRequest modelUrl payload, Event.sleep 8000,
        Event.apiRequest modelUrl payload, Event.sleep 16000,
        Event.apiRequest modelUrl payload, Event.sleep 32000 ] := by
  have e : callApiWithRetry fetchAt payload modelUrl 5 2000 =
      (.error .apiCriticalError,
        [ Event.apiRequest modelUrl payload, Event.sleep 2000,
          Event.apiRequest modelUrl payload, Event.sleep 4000,
          Event.apiRequest modelUrl payload, Event.sleep 8000,
          Event.apiRequest modelUrl payload, Event.sleep 16000,
          Event.apiRequest modelUrl payload, Event.sleep 32000 ]) := by
    unfold callApiWithRetry
    rw [retryLoop_retryable _ _ _ _ _ _ (h 0 (by omega)),
      retryLoop_retryable _ _ _ _ _ _ (h 1 (by omega)),
      retryLoop_retryable _ _ _ _ _ _ (h 2 (by omega)),
      retryLoop_retryable _ _ _ _ _ _ (h 3 (by omega)),
      retryLoop_retryable _ _ _ _ _ _ (h 4 (by omega))]
    simp [retryLoop]
  rw [e]
  refine ⟨rfl, ?_, ?_, rfl⟩
  · simp [Event.isApiRequest]
  · simp [sleepsBetweenRequests, sleeps, Event.isApiRequest]

/-- C8 at a concrete run: five answers with HTTP 503. -/
theorem callApiWithRetry_exhausted_witness :
    (callApiWithRetry (fun _ => FetchOutcome.response 503 none) samplePayload geminiApiUrl
      5 2000).1 = .error .apiCriticalError ∧
    sleepsBetweenRequests (callApiWithRetry (fun _ => FetchOutcome.response 503 none)
      samplePayload geminiApiUrl 5 2000).2 = [2000, 4000, 8000, 16000] := by
  have h := callApiWithRetry_exhausted (fun _ => FetchOutcome.response 503 none)
    samplePayload geminiApiUrl (fun _ _ => rfl)
  exact ⟨h.1, h.2.2.1⟩

/-- C9: an attempt answered with HTTP 404 and a body that is not JSON does not end the
call: `response.json()` raises before the status is looked at, the `catch` treats the
error as unexpected, waits and retries, and the call ends after five requests and five
waits with the retries-exhausted error instead of an `[API ERROR]`. -/
theorem callApiWithRetry_unreadable_404_retried (payload : Payload) (modelUrl : JsString) :
    callApiWithRetry (fun _ => FetchOutcome.response 404 none) payload modelUrl 5 2000 =
      (.error .apiCriticalError,
        [ Event.apiRequest modelUrl payload, Event.sleep 2000,
          Event.apiRequest modelUrl payload, Event.sleep 4000,
          Event.apiRequest modelUrl payload, Event.sleep 8000,
          Event.apiRequest modelUrl payload, Event.sleep 16000,
          Event.apiRequest modelUrl payload, Event.sleep 32000 ]) := by
  simp [callApiWithRetry, retryLoop, tryAttempt, responseOk, JsError.isApiError]

/-- An attempt answered with a non-success status other than 429 and below 500 whose body
is readable ends the call at once with `[API ERROR]`: one request, no wait. -/
theorem retryLoop_terminal_status (fetchAt : Nat → FetchOutcome) (payload : Payload)
    (modelUrl : JsString) (delay remaining i status : Nat) (body : ApiBody)
    (hf : fetchAt i = .response status (some body))
    (hok : responseOk status = false) (h429 : status ≠ 429) (h500 : status < 500) :
    retryLoop fetchAt payload modelUrl delay (remaining + 1) i =
      (.error (.apiError status), [Event.apiRequest modelUrl payload]) := by
  have : ¬ (status = 429 ∨ status ≥ 500) := by omega
  simp [retryLoop, hf, tryAttempt, hok, this, JsError.isApiError]

/-! ## Traces of the parts of the handler -/

/-- The loop of `callApiWithRetry` makes only scoring requests and waits. -/
theorem retryLoop_events (fetchAt : Nat → FetchOutcome) (payload : Payload)
    (modelUrl : JsString) (delay remaining i : Nat) :
    ∀ ev ∈ (retryLoop fetchAt payload modelUrl delay remaining i).2,
      ev = Event.apiRequest modelUrl payload ∨ ∃ ms, ev = Event.sleep ms := by
  induction remaining generalizing i with
  | zero => intro ev hev; simp [retryLoop] at hev
  | succ n ih =>
    intro ev hev
    unfold retryLoop at hev
    cases ht : tryAttempt (fetchAt i) with
    | returned json =>
      simp only [ht, List.mem_singleton] at hev
      exact Or.inl hev
    | slept =>
      simp only [ht, List.mem_cons] at hev
      rcases hev with h | h | h
      · exact Or.inl h
      · exact Or.inr ⟨_, h⟩
      · exact ih (i + 1) ev h
    | threw error =>
      simp only [ht] at hev
      by_cases ha : error.isApiError = true
      · simp only [ha, if_true, List.mem_singleton] at hev
        exact Or.inl hev
      · simp only [ha, Bool.false_eq_true, if_false, List.mem_cons] at hev
        rcases hev with h | h | h
        · exact Or.inl h
        · exact Or.inr ⟨_, h⟩
        · exact ih (i + 1) ev h

/-- The scoring block of `generateScore` makes only the events of `callApiWithRetry`. -/
theorem scoreWithPayload_trace (env : Env) (payload : Payload) :
    (scoreWithPayload env payload).2 =
      (callApiWithRetry env.fetchAt payload geminiApiUrl 5 2000).2 := by
  unfold scoreWithPayload
  dsimp only
  split
  · rfl
  · split
    · rfl
    · split <;> rfl

/-- No part of `generateScore` touches the storage or sends a notification. -/
theorem generateScore_events (env : Env) (url title description resultType : JsString) :
    ∀ ev ∈ (generateScore env url title description resultType).2,
      ev.isStorageSet = false ∧ ev.isInjectBadge = false := by
  intro ev hev
  have key : ∀ payload, ∀ ev ∈ (scoreWithPayload env payload).2,
      ev.isStorageSet = false ∧ ev.isInjectBadge = false := by
    intro payload ev hev
    rw [scoreWithPayload_trace] at hev
    rcases retryLoop_events _ _ _ _ _ _ ev hev with h | ⟨ms, h⟩ <;> rw [h] <;> exact ⟨rfl, rfl⟩
  unfold generateScore at hev
  by_cases hn : resultType = "news".toList
  · simp only [hn, if_true, List.mem_append] at hev
    rcases hev with h | h
    · simp only [callFactCheckApi, List.mem_singleton] at h
      subst h
      exact ⟨rfl, rfl⟩
    · exact key _ ev h
  · by_cases ha : resultType = "article".toList
    · simp only [hn, ha, if_true, if_false] at hev
      exact key _ ev hev
    · simp only [hn, ha, if_false] at hev
      simp at hev

/-- The final step keeps the storage content. -/
theorem sendFinal_store (env : Env) (store : Store) (trace : List Event) (id : JsString)
    (scoreData : ScoreData) : (sendFinal env store trace id scoreData).store = store := by
  unfold sendFinal
  cases env.badge <;> rfl

/-- The final step adds at most the `INJECT_BADGE` message to the trace. -/
theorem sendFinal_trace (env : Env) (store : Store) (trace : List Event) (id : JsString)
    (scoreData : ScoreData) :
    (sendFinal env store trace id scoreData).trace =
      trace ++ (if env.badge = .threw then []
        else [Event.injectBadge id scoreData.score scoreData.summary
          (createBadgeSvg scoreData.score)]) := by
  unfold sendFinal
  cases env.badge <;> simp

/-! ## Message handler -/

/-- A run that finds an unexpired entry: the trace is the storage read and the final
message with the cached data. -/
theorem analyzeResult_hit_trace (env : Env) (store : Store) (request : Request)
    (e : CacheEntry) (he : store (CACHE_PREFIX ++ request.url) = some e)
    (hfresh : env.lookupTime - e.timestamp < 86400000) :
    (analyzeResult env store request).trace =
      Event.storageGet (CACHE_PREFIX ++ request.url) ::
        (if env.badge = .threw then []
         else [Event.injectBadge request.id e.data.score e.data.summary
           (createBadgeSvg e.data.score)]) := by
  have hget : getFromCache store env.lookupTime request.url = some e.data :=
    getFromCache_fresh store env.lookupTime request.url e he hfresh
  simp only [analyzeResult, hget, sendFinal_trace]
  rfl

/-- C3: for a request whose url has an unexpired cache entry, whatever its resultType, the
handler reads the storage, makes no external call, sends no `SHOW_LOADING`, leaves the
storage as it is, and the `INJECT_BADGE` message it sends carries the cached score and
summary. -/
theorem analyzeResult_cache_hit (env : Env) (store : Store) (request : Request)
    (e : CacheEntry) (he : store (CACHE_PREFIX ++ request.url) = some e)
    (hfresh : env.lookupTime - e.timestamp < 86400000) :
    (analyzeResult env store request).trace =
      Event.storageGet (CACHE_PREFIX ++ request.url) ::
        (if env.badge = .threw then []
         else [Event.injectBadge request.id e.data.score e.data.summary
           (createBadgeSvg e.data.score)]) ∧
    (analyzeResult env store request).trace.filter Event.isExternalCall = [] ∧
    (analyzeResult env store request).store = store := by
  have ht := analyzeResult_hit_trace env store request e he hfresh
  refine ⟨ht, ?_, ?_⟩
  · rw [ht]
    by_cases hb : env.badge = .threw <;> simp [hb, Event.isExternalCall]
  · have hget : getFromCache store env.lookupTime request.url = some e.data :=
      getFromCache_fresh store env.lookupTime request.url e he hfresh
    simp only [analyzeResult, hget, sendFinal_store]

/-- C3 at a concrete run: a request of an unknown category for a cached url. -/
theorem analyzeResult_cache_hit_witness :
    (analyzeResult (answeringEnv 5000 6000 "SCORE:10 SUMMARY:other".toList) sampleStore
      { sampleRequest with resultType := "video".toList }).trace =
      [ Event.storageGet "cc_score_https://a.example".toList,
        Event.injectBadge "news-0".toList 72 "ok".toList
          { fill := "#10B981".toList, label := some 72 } ] := by
  exact (analyzeResult_cache_hit (answeringEnv 5000 6000 "SCORE:10 SUMMARY:other".toList)
    sampleStore { sampleRequest with resultType := "video".toList }
    { data := { score := 72, summary := "ok".toList }, timestamp := 1000 }
    (by decide) (by decide)).1

/-- The handler writes to the storage only what the guard of line 388 lets through: when
the guard rejects the generated result, or generation fails, the storage is unchanged and
no write is attempted. -/
theorem analyzeResult_no_write (env : Env) (store : Store) (request : Request)
    (h : ∀ scoreData,
      (generateScore env request.url request.title request.description
        request.resultType).1 = .ok scoreData → shouldCache scoreData = false) :
    (analyzeResult env store request).store = store ∧
    (analyzeResult env store request).trace.filter Event.isStorageSet = [] := by
  have hgen : (generateScore env request.url request.title request.description
      request.resultType).2.filter Event.isStorageSet = [] := by
    rw [List.filter_eq_nil_iff]
    intro ev hev
    simp [(generateScore_events env _ _ _ _ ev hev).1]
  unfold analyzeResult
  cases hget : getFromCache store env.lookupTime request.url with
  | some scoreData =>
    simp only [sendFinal_store, sendFinal_trace]
    refine ⟨trivial, ?_⟩
    by_cases hb : env.badge = .threw <;> simp [hb, Event.isStorageSet]
  | none =>
    cases hl : env.loading with
    | threw => simp [Event.isStorageSet]
    | delivered =>
      simp only []
      cases hg : (generateScore env request.url request.title request.description
          request.resultType).1 with
      | error err => simp [hgen, Event.isStorageSet]
      | ok scoreData =>
        simp only [h scoreData hg, Bool.false_eq_true, if_false, sendFinal_store,
          sendFinal_trace]
        refine ⟨trivial, ?_⟩
        by_cases hb : env.badge = .threw <;> simp [hb, hgen, Event.isStorageSet]
    | undelivered =>
      simp only []
      cases hg : (generateScore env request.url request.title request.description
          request.resultType).1 with
      | error err => simp [hgen, Event.isStorageSet]
      | ok scoreData =>
        simp only [h scoreData hg, Bool.false_eq_true, if_false, sendFinal_store,
          sendFinal_trace]
        refine ⟨trivial, ?_⟩
        by_cases hb : env.badge = .threw <;> simp [hb, hgen, Event.isStorageSet]

/-- When the scoring call returns a body with a non-empty text, `generateScore` returns
what the parsing block makes of that text, for both supported categories. -/
theorem generateScore_parses (env : Env) (url title description resultType text : JsString)
    (hrt : resultType = "news".toList ∨ resultType = "article".toList)
    (hresp : ∀ payload,
      (callApiWithRetry env.fetchAt payload geminiApiUrl 5 2000).1 = .ok { text := some text })
    (hne : text ≠ []) :
    (generateScore env url title description resultType).1 =
      .ok (parseResponse env.jsonParse text).1 := by
  have hemp : text.isEmpty = false := by
    cases text with
    | nil => exact absurd rfl hne
    | cons c cs => rfl
  have key : ∀ payload, (scoreWithPayload env payload).1 =
      .ok (parseResponse env.jsonParse text).1 := by
    intro payload
    unfold scoreWithPayload
    simp only [hresp payload, hemp, Bool.false_eq_true, if_false]
  unfold generateScore
  rcases hrt with h | h
  · simp only [h, if_true, key]
  · have hn : ¬ ("article".toList = "news".toList) := by decide
    simp only [h, hn, if_true, if_false, key]

/-- C6: when the first non-blank line of a non-empty response text lacks a
`SCORE:<digits>` match or lacks a `SUMMARY:` match, `generateScore` returns the sentinel
`{score: 0, summary: "Analysis format error. ..."}` and nothing of the line is extracted;
handling the request leaves the storage unchanged and attempts no storage write. -/
theorem format_error_sentinel_not_cached (env : Env) (store : Store) (request : Request)
    (text : JsString)
    (hrt : request.resultType = "news".toList ∨ request.resultType = "article".toList)
    (hresp : ∀ payload,
      (callApiWithRetry env.fetchAt payload geminiApiUrl 5 2000).1 = .ok { text := some text })
    (hne : text ≠ [])
    (hfmt : scoreMatch (plainTextLine text) = none ∨ summaryMatch (plainTextLine text) = none) :
    (generateScore env request.url request.title request.description request.resultType).1
      = .ok { score := 0,
              summary := "Analysis format error. Detailed analysis could not be completed. (LLM Format)".toList } ∧
    (analyzeResult env store request).store = store ∧
    (analyzeResult env store request).trace.filter Event.isStorageSet = [] := by
  have hparse : (parseResponse env.jsonParse text).1 = formatErrorResult := by
    unfold parseResponse
    rcases hfmt with h | h
    · simp only [h]
    · simp only [h]
      cases scoreMatch (plainTextLine text) <;> rfl
  have hgen := generateScore_parses env request.url request.title request.description
    request.resultType text hrt hresp hne
  rw [hparse] at hgen
  refine ⟨hgen, ?_⟩
  apply analyzeResult_no_write
  intro scoreData hsd
  rw [hgen] at hsd
  cases hsd
  decide

/-- C6 at a concrete run: the response `analysis pending`. -/
theorem format_error_sentinel_not_cached_witness :
    (generateScore (answeringEnv 1000 2000 "analysis pending".toList)
      sampleRequest.url sampleRequest.title sampleRequest.description
      sampleRequest.resultType).1 = .ok formatErrorResult ∧
    (analyzeResult (answeringEnv 1000 2000 "analysis pending".toList) Store.empty
      sampleRequest).trace.filter Event.isStorageSet = [] := by
  have h := format_error_sentinel_not_cached
    (answeringEnv 1000 2000 "analysis pending".toList) Store.empty sampleRequest
    "analysis pending".toList (Or.inl rfl) (fun _ => rfl) (by decide) (Or.inl (by decide))
  exact ⟨h.1, h.2.2⟩

/-- C7: the result of the parsing block depends only on the first non-blank line of the
response text: two texts with the same first non-blank line give the same
`{score, summary}`, or both the format-error sentinel, whatever lines follow and whether
`JSON.parse` accepts the JSON-looking line or not. -/
theorem parseResponse_first_line (jsonParse1 jsonParse2 : JsString → Bool)
    (text1 text2 : JsString) (h : plainTextLine text1 = plainTextLine text2) :
    (parseResponse jsonParse1 text1).1 = (parseResponse jsonParse2 text2).1 := by
  unfold parseResponse
  rw [h]
  dsimp only
  cases scoreMatch (plainTextLine text2) with
  | none => rfl
  | some ds =>
    cases summaryMatch (plainTextLine text2) with
    | none => rfl
    | some captured => rfl

/-- C7 at concrete texts: the first line alone, and the first line followed by a
JSON-looking line that `JSON.parse` rejects. -/
theorem parseResponse_first_line_witness :
    (parseResponse (fun _ => true) "SCORE:72 SUMMARY:ok".toList).1 =
      (parseResponse (fun _ => false) "SCORE:72 SUMMARY:ok\n\x7bscore:\x7d".toList).1 ∧
    (parseResponse (fun _ => false) "SCORE:72 SUMMARY:ok\n\x7bscore:\x7d".toList).2 =
      [ParseLog.devJsonFailed] :=
  ⟨parseResponse_first_line (fun _ => true) (fun _ => false) "SCORE:72 SUMMARY:ok".toList
    "SCORE:72 SUMMARY:ok\n\x7bscore:\x7d".toList (by decide), by decide⟩

/-- When the `SHOW_LOADING` call itself raises, the handler returns at once: the trace
holds the storage read only and the storage is unchanged. -/
theorem analyzeResult_loading_threw (env : Env) (store : Store) (request : Request)
    (hmiss : getFromCache store env.lookupTime request.url = none)
    (hl : env.loading = .threw) :
    (analyzeResult env store request).trace =
      [Event.storageGet (CACHE_PREFIX ++ request.url)] ∧
    (analyzeResult env store request).store = store ∧
    (analyzeResult env store request).outcome = .abandoned := by
  simp [analyzeResult, hmiss, hl]

/-- C10: a request that misses the cache and whose `SHOW_LOADING` message cannot be
delivered because the tab is closed: the call does not raise, so the handler goes on,
makes the fact-check lookup and the scoring call, writes the result to the cache and
sends `INJECT_BADGE`. -/
theorem analyzeResult_undelivered_loading_continues :
    getFromCache Store.empty 1000 sampleRequest.url = none ∧
    ((analyzeResult (closedTabEnv 1000 2000 "SCORE:72 SUMMARY:fine".toList) Store.empty
      sampleRequest).trace.filter Event.isExternalCall).length = 2 ∧
    (analyzeResult (closedTabEnv 1000 2000 "SCORE:72 SUMMARY:fine".toList) Store.empty
      sampleRequest).store "cc_score_https://a.example".toList =
        some { data := { score := 72, summary := "fine".toList }, timestamp := 2000 } ∧
    ((analyzeResult (closedTabEnv 1000 2000 "SCORE:72 SUMMARY:fine".toList) Store.empty
      sampleRequest).trace.filter Event.isInjectBadge).length = 1 := by
  refine ⟨by decide, by decide, by decide, by decide⟩

/-! ## Repeated requests -/

/-- A request that misses the cache, whose `SHOW_LOADING` call does not raise and whose
generated result passes the guard of line 388 is saved: the trace is the storage read,
the loading message, the events of `generateScore`, the storage write and the final
message. -/
theorem analyzeResult_fresh_saved (env : Env) (store : Store) (request : Request)
    (scoreData : ScoreData)
    (hmiss : getFromCache store env.lookupTime request.url = none)
    (hload : env.loading ≠ .threw)
    (hgen : (generateScore env request.url request.title request.description
      request.resultType).1 = .ok scoreData)
    (hcache : shouldCache scoreData = true) :
    (analyzeResult env store request).store =
      saveToCache store env.saveTime env.writeOk request.url scoreData ∧
    (analyzeResult env store request).trace =
      [Event.storageGet (CACHE_PREFIX ++ request.url), Event.showLoading request.id] ++
        (generateScore env request.url request.title request.description
          request.resultType).2 ++
        [Event.storageSet (CACHE_PREFIX ++ request.url)
          { data := scoreData, timestamp := env.saveTime }] ++
        (if env.badge = .threw then []
         else [Event.injectBadge request.id scoreData.score scoreData.summary
           (createBadgeSvg scoreData.score)]) := by
  unfold analyzeResult
  cases hl : env.loading with
  | threw => exact absurd hl hload
  | delivered =>
    simp only [hmiss, hgen, hcache, if_true, sendFinal_store, sendFinal_trace]
    simp
  | undelivered =>
    simp only [hmiss, hgen, hcache, if_true, sendFinal_store, sendFinal_trace]
    simp

/-- A call whose first attempt gets a success response with a readable body makes exactly
one request. -/
theorem callApiWithRetry_first_success (fetchAt : Nat → FetchOutcome) (payload : Payload)
    (modelUrl : JsString) (remaining delay status : Nat) (body : ApiBody)
    (hf : fetchAt 0 = .response status (some body)) (hok : responseOk status = true) :
    callApiWithRetry fetchAt payload modelUrl (remaining + 1) delay =
      (.ok body, [Event.apiRequest modelUrl payload]) := by
  simp [callApiWithRetry, retryLoop, hf, tryAttempt, hok]

/-- C2, as stated, fails: when the first of two requests for the same url gets the answer
`SCORE:0 SUMMARY:fine`, nothing is cached, and the second request, two seconds later,
calls the scoring service again. -/
theorem repeat_request_not_always_from_cache :
    ¬ (∀ (env1 env2 : Env) (store : Store) (request1 request2 : Request),
        request1.url = request2.url →
        env1.lookupTime ≤ env2.lookupTime →
        env2.lookupTime - env1.lookupTime < 86400000 →
        (analyzeTwice env1 env2 store request1 request2).2.trace.filter
            Event.isApiRequest = [] ∧
        (((analyzeTwice env1 env2 store request1 request2).1.trace ++
          (analyzeTwice env1 env2 store request1 request2).2.trace).filter
            Event.isApiRequest).length = 1) := by
  intro h
  have h2 := (h (answeringEnv 1000 2000 "SCORE:0 SUMMARY:fine".toList)
    (answeringEnv 3000 4000 "SCORE:0 SUMMARY:fine".toList) Store.empty sampleRequest
    sampleRequest rfl (by decide) (by decide)).2
  revert h2
  decide

/-- C2, amended: of two requests for the same url handled one after the other, the second
looked up less than 24h after the first, when the first misses the cache and its fresh
result is written to the cache (score above 0, no `error` in the lower-cased summary,
the storage write succeeds), the second is served from the cache with that result and
makes no external call; the scoring requests of both runs are those of the first run,
exactly one when its first attempt succeeds. -/
theorem repeat_request_served_from_cache (env1 env2 : Env) (store : Store)
    (request1 request2 : Request) (scoreData : ScoreData)
    (hurl : request1.url = request2.url)
    (hmiss : getFromCache store env1.lookupTime request1.url = none)
    (hload : env1.loading ≠ .threw)
    (hgen : (generateScore env1 request1.url request1.title request1.description
      request1.resultType).1 = .ok scoreData)
    (hpos : scoreData.score > 0)
    (hnoerr : includes "error".toList (toLowerCase scoreData.summary) = false)
    (hwrite : env1.writeOk = true)
    (hclock : env1.lookupTime ≤ env1.saveTime)
    (hwithin : env2.lookupTime - env1.lookupTime < 86400000) :
    (analyzeTwice env1 env2 store request1 request2).2.trace =
      Event.storageGet (CACHE_PREFIX ++ request2.url) ::
        (if env2.badge = .threw then []
         else [Event.injectBadge request2.id scoreData.score scoreData.summary
           (createBadgeSvg scoreData.score)]) ∧
    (analyzeTwice env1 env2 store request1 request2).2.trace.filter
      Event.isExternalCall = [] ∧
    ((analyzeTwice env1 env2 store request1 request2).1.trace ++
      (analyzeTwice env1 env2 store request1 request2).2.trace).filter Event.isApiRequest =
      (generateScore env1 request1.url request1.title request1.description
        request1.resultType).2.filter Event.isApiRequest ∧
    (∀ status body, env1.fetchAt 0 = .response status (some body) →
      responseOk status = true →
      (((analyzeTwice env1 env2 store request1 request2).1.trace ++
        (analyzeTwice env1 env2 store request1 request2).2.trace).filter
          Event.isApiRequest).length = 1) := by
  have hcache : shouldCache scoreData = true := by
    unfold shouldCache
    rw [hnoerr]
    simpa using hpos
  obtain ⟨hstore, htrace1⟩ :=
    analyzeResult_fresh_saved env1 store request1 scoreData hmiss hload hgen hcache
  have hentry : (analyzeResult env1 store request1).store (CACHE_PREFIX ++ request2.url) =
      some { data := scoreData, timestamp := env1.saveTime } := by
    rw [hstore, ← hurl]
    simp [saveToCache, hwrite, Store.set]
  have hfresh : env2.lookupTime -
      (({ data := scoreData, timestamp := env1.saveTime } : CacheEntry)).timestamp
        < 86400000 := by
    show env2.lookupTime - env1.saveTime < 86400000
    omega
  have ht2 := analyzeResult_hit_trace env2
    (analyzeResult env1 store request1).store request2 _ hentry hfresh
  have hext2 : (analyzeResult env2 (analyzeResult env1 store request1).store
      request2).trace.filter Event.isExternalCall = [] := by
    rw [ht2]
    by_cases hb : env2.badge = .threw <;> simp [hb, Event.isExternalCall]
  have hapi2 : (analyzeResult env2 (analyzeResult env1 store request1).store
      request2).trace.filter Event.isApiRequest = [] := by
    rw [ht2]
    by_cases hb : env2.badge = .threw <;> simp [hb, Event.isApiRequest]
  have hall : ((analyzeResult env1 store request1).trace ++
      (analyzeResult env2 (analyzeResult env1 store request1).store request2).trace).filter
        Event.isApiRequest =
      (generateScore env1 request1.url request1.title request1.description
        request1.resultType).2.filter Event.isApiRequest := by
    rw [List.filter_append, hapi2, htrace1]
    by_cases hb : env1.badge = .threw <;> simp [hb, Event.isApiRequest]
  refine ⟨ht2, hext2, hall, ?_⟩
  intro status body hf hok
  show (((analyzeResult env1 store request1).trace ++
      (analyzeResult env2 (analyzeResult env1 store request1).store request2).trace).filter
        Event.isApiRequest).length = 1
  rw [hall]
  have hscore : ∀ payload, (scoreWithPayload env1 payload).2.filter Event.isApiRequest =
      [Event.apiRequest geminiApiUrl payload] := by
    intro payload
    rw [scoreWithPayload_trace, callApiWithRetry_first_success _ _ _ 4 _ status body hf hok]
    simp [Event.isApiRequest]
  unfold generateScore at hgen ⊢
  by_cases hn : request1.resultType = "news".toList
  · simp only [hn, if_true, List.filter_append, hscore]
    simp [callFactCheckApi, Event.isApiRequest]
  · by_cases ha : request1.resultType = "article".toList
    · have hne : ¬ ("article".toList = "news".toList) := by decide
      rw [ha]
      simp only [hne, if_true, if_false, hscore]
      rfl
    · simp only [hn, ha, if_false] at hgen
      cases hgen

/-- C2, amended, at a concrete pair of runs: the first answer is `SCORE:72 SUMMARY:fine`,
the second request comes two seconds later. -/
theorem repeat_request_served_from_cache_witness :
    (analyzeTwice (answeringEnv 1000 2000 "SCORE:72 SUMMARY:fine".toList)
      (answeringEnv 3000 4000 "SCORE:5 SUMMARY:other".toList) Store.empty sampleRequest
      sampleRequest).2.trace =
      [ Event.storageGet "cc_score_https://a.example".toList,
        Event.injectBadge "news-0".toList 72 "fine".toList
          { fill := "#10B981".toList, label := some 72 } ] :=
  (repeat_request_served_from_cache
    (answeringEnv 1000 2000 "SCORE:72 SUMMARY:fine".toList)
    (answeringEnv 3000 4000 "SCORE:5 SUMMARY:other".toList) Store.empty sampleRequest
    sampleRequest { score := 72, summary := "fine".toList } rfl (by decide) (by decide)
    rfl (by decide) (by decide) rfl (by decide) (by decide)).1

/-! ## Response parser -/

/-- The model of `parseInt` on a string of digits computes the decimal value of the string. -/
theorem parseInt_eq_decimalValue (ds : JsString) : parseInt ds = decimalValue ds := by
  induction ds using List.reverseRecOn with
  | nil => rfl
  | append_singleton l c ih =>
    have h1 : parseInt (l ++ [c]) = 10 * parseInt l + (c.toNat - 48) := by
      simp [parseInt, List.foldl_append]
    have h2 : decimalValue (l ++ [c]) = (c.toNat - 48) + 10 * decimalValue l := by
      simp [decimalValue, Nat.ofDigits_cons]
    rw [h1, h2, ih]
    omega

/-- A successful label match splits the input into the matched letters and the rest. -/
theorem matchLabel_split (label : List Char) (s r : JsString)
    (h : matchLabel label s = some r) :
    ∃ lab, s = lab ++ r ∧ List.Forall₂ (fun p c => matchLetter p c = true) label lab := by
  induction label generalizing s with
  | nil =>
    simp only [matchLabel, Option.some.injEq] at h
    exact ⟨[], by simp [h], List.Forall₂.nil⟩
  | cons p ps ih =>
    cases s with
    | nil => simp [matchLabel] at h
    | cons c cs =>
      by_cases hm : matchLetter p c = true
      · simp only [matchLabel, hm, if_true] at h
        obtain ⟨lab, hcs, hall⟩ := ih cs h
        exact ⟨c :: lab, by simp [hcs], List.Forall₂.cons hm hall⟩
      · simp [matchLabel, hm] at h

/-- What the anchored `SCORE` pattern captures: the input is the label, white space, a
colon, white space, the captured non-empty run of digits, and a rest that does not start
with a digit. -/
theorem scoreAt_split (s ds : JsString) (h : scoreAt s = some ds) :
    ∃ lab ws1 ws2 rest, s = lab ++ ws1 ++ ':' :: (ws2 ++ ds ++ rest) ∧
      List.Forall₂ (fun p c => matchLetter p c = true) "SCORE".toList lab ∧
      (∀ c ∈ ws1, isWhiteSpace c = true) ∧ (∀ c ∈ ws2, isWhiteSpace c = true) ∧
      ds ≠ [] ∧ (∀ c ∈ ds, isDigit c = true) ∧
      (∀ c, rest.head? = some c → isDigit c = false) := by
  unfold scoreAt at h
  cases hl : matchLabel "SCORE".toList s with
  | none =>
    rw [hl] at h
    cases h
  | some r =>
    rw [hl] at h
    dsimp only at h
    obtain ⟨lab, hs, hlab⟩ := matchLabel_split _ _ _ hl
    split at h
    · rename_i r2 hr
      by_cases he : ((r2.dropWhile isWhiteSpace).takeWhile isDigit).isEmpty = true
      · simp [he] at h
      · simp only [he, Bool.false_eq_true, if_false, Option.some.injEq] at h
        refine ⟨lab, r.takeWhile isWhiteSpace, r2.takeWhile isWhiteSpace,
          (r2.dropWhile isWhiteSpace).dropWhile isDigit, ?_, hlab, ?_, ?_, ?_, ?_, ?_⟩
        · rw [← h, List.append_assoc (List.takeWhile isWhiteSpace r2),
            List.takeWhile_append_dropWhile, List.takeWhile_append_dropWhile, ← hr,
            List.append_assoc, List.takeWhile_append_dropWhile, hs]
        · intro c hc
          exact List.mem_takeWhile_imp hc
        · intro c hc
          exact List.mem_takeWhile_imp hc
        · intro hnil
          rw [← h] at hnil
          simp [hnil] at he
        · intro c hc
          rw [← h] at hc
          exact List.mem_takeWhile_imp hc
        · intro c hc
          have := List.head?_dropWhile_not isDigit (r2.dropWhile isWhiteSpace)
          rw [hc] at this
          simpa using this
    · simp at h

/-- The digits captured by `scoreMatch` are captured by the anchored pattern at some
position of the line, and the anchored pattern matches at no earlier position. -/
theorem scoreMatch_split (line ds : JsString) (h : scoreMatch line = some ds) :
    ∃ pre s, line = pre ++ s ∧ scoreAt s = some ds ∧
      (∀ p q, pre = p ++ q → q ≠ [] → scoreAt (q ++ s) = none) := by
  induction line with
  | nil => simp [scoreMatch] at h
  | cons c cs ih =>
    unfold scoreMatch at h
    cases ha : scoreAt (c :: cs) with
    | some d =>
      simp only [ha, Option.some.injEq] at h
      refine ⟨[], c :: cs, rfl, by rw [ha, h], ?_⟩
      intro p q hpq hq
      have : q = [] := by
        have hl := congrArg List.length hpq
        simp only [List.length_nil, List.length_append] at hl
        exact List.eq_nil_of_length_eq_zero (by omega)
      exact absurd this hq
    | none =>
      simp only [ha] at h
      obtain ⟨pre, s, hcs, hs, hleft⟩ := ih h
      refine ⟨c :: pre, s, by simp [hcs], hs, ?_⟩
      intro p q hpq hq
      cases p with
      | nil =>
        simp only [List.nil_append] at hpq
        rw [← hpq, List.cons_append, ← hcs]
        exact ha
      | cons a p' =>
        simp only [List.cons_append, List.cons.injEq] at hpq
        exact hleft p' q hpq.2 hq

/-- When the two matches of lines 322-323 succeed on the first non-blank line, the
`SUMMARY` one being anchored at the end of the line, the returned score is `min(100, n)`, where `n` is the decimal
value of the digits captured by the leftmost `SCORE` match: a non-empty maximal run of
digits that follows the label, the colon and optional white space, at the first position
of the line where the pattern matches; so the score is between 0 and 100. -/
theorem parseResponse_score_clamped (jsonParse : JsString → Bool)
    (text ds captured : JsString)
    (hs : scoreMatch (plainTextLine text) = some ds)
    (hm : summaryMatch (plainTextLine text) = some captured) :
    (parseResponse jsonParse text).1.score = ((min 100 (decimalValue ds) : Nat) : Int) ∧
    0 ≤ (parseResponse jsonParse text).1.score ∧
    (parseResponse jsonParse text).1.score ≤ 100 ∧
    (∃ pre lab ws1 ws2 rest,
      plainTextLine text = pre ++ (lab ++ ws1 ++ ':' :: (ws2 ++ ds ++ rest)) ∧
      List.Forall₂ (fun p c => matchLetter p c = true) "SCORE".toList lab ∧
      (∀ c ∈ ws1, isWhiteSpace c = true) ∧ (∀ c ∈ ws2, isWhiteSpace c = true) ∧
      ds ≠ [] ∧ (∀ c ∈ ds, isDigit c = true) ∧
      (∀ c, rest.head? = some c → isDigit c = false) ∧
      (∀ p q, pre = p ++ q → q ≠ [] →
        scoreAt (q ++ (lab ++ ws1 ++ ':' :: (ws2 ++ ds ++ rest))) = none)) := by
  have hscore : (parseResponse jsonParse text).1.score =
      ((min 100 (decimalValue ds) : Nat) : Int) := by
    unfold parseResponse
    simp only [hs, hm, parseInt_eq_decimalValue]
    omega
  refine ⟨hscore, ?_, ?_, ?_⟩
  · rw [hscore]; omega
  · rw [hscore]; omega
  · obtain ⟨pre, s, hline, hat, hleft⟩ := scoreMatch_split _ _ hs
    obtain ⟨lab, ws1, ws2, rest, hsplit, h1, h2, h3, h4, h5, h6⟩ := scoreAt_split _ _ hat
    refine ⟨pre, lab, ws1, ws2, rest, by rw [hline, hsplit], h1, h2, h3, h4, h5, h6, ?_⟩
    intro p q hpq hq
    rw [← hsplit]
    exact hleft p q hpq hq

/-- The response `SCORE:150 SUMMARY:ok` gives the score 100. -/
theorem parseResponse_score_clamped_witness :
    (parseResponse (fun _ => true) "SCORE:150 SUMMARY:ok".toList).1.score = 100 := by
  have h := (parseResponse_score_clamped (fun _ => true) "SCORE:150 SUMMARY:ok".toList
    "150".toList "ok".toList (by decide) (by decide)).1
  rw [h, ← parseInt_eq_decimalValue]
  decide

/-- C4: a first line that ends with a carriage return matches both
`SCORE\s*:\s*(\d+)` and `SUMMARY\s*:\s*(.*)`, yet the regular expression of line 323
is anchored with `$` and `.` does not match a carriage return, so `summaryMatch` is null
and the format-error sentinel with score 0 is returned where `min(100, 72) = 72` is
expected.  The response is `SCORE:72 SUMMARY:ok`, a CRLF line break and a JSON line. -/
theorem parseResponse_crlf_line_rejected :
    plainTextLine "SCORE:72 SUMMARY:ok\r\n\x7b\"score\":72\x7d".toList =
      "SCORE:72 SUMMARY:ok\r".toList ∧
    scoreMatch "SCORE:72 SUMMARY:ok\r".toList = some "72".toList ∧
    matchesSummaryPattern "SCORE:72 SUMMARY:ok\r".toList = true ∧
    summaryMatch "SCORE:72 SUMMARY:ok\r".toList = none ∧
    (parseResponse (fun _ => true)
      "SCORE:72 SUMMARY:ok\r\n\x7b\"score\":72\x7d".toList).1 =
      { score := 0,
        summary := "Analysis format error. Detailed analysis could not be completed. (LLM Format)".toList } ∧
    (parseResponse (fun _ => true)
      "SCORE:72 SUMMARY:ok\r\n\x7b\"score\":72\x7d".toList).1.score ≠
      ((min 100 (decimalValue "72".toList) : Nat) : Int) := by
  refine ⟨by decide, by decide, by decide, by decide, by decide, ?_⟩
  rw [← parseInt_eq_decimalValue]
  decide

/-- C5: the index found in the lower-cased summary is applied to the summary itself, and
the two differ in length when the text holds U+0130, whose lower case takes two code
units.  For `SCORE:72 SUMMARY:İ SUMMARY:abc` the text that follows the last `summary:`
token is `abc`, and the returned summary is `bc`.  The example of the specification,
without such a character, gives `Clean record.` -/
theorem extractSummary_index_shift :
    (parseResponse (fun _ => true) "SCORE:72 SUMMARY:İ SUMMARY:abc".toList).1 =
      { score := 72, summary := "bc".toList } ∧
    summaryMatch (plainTextLine "SCORE:72 SUMMARY:İ SUMMARY:abc".toList) =
      some "İ SUMMARY:abc".toList ∧
    (parseResponse (fun _ => true)
      "SCORE:72 SUMMARY:No issues found. SUMMARY: Clean record.".toList).1 =
      { score := 72, summary := "Clean record.".toList } := by
  refine ⟨by decide, by decide, by decide⟩

/-! ## Failures of `generateScore` -/

/-- For a resultType other than `news` and `article`, `generateScore` raises at line 296
before any request is made. -/
theorem generateScore_of_unsupported (env : Env) (url title description resultType : JsString)
    (hn : resultType ≠ "news".toList) (ha : resultType ≠ "article".toList) :
    generateScore env url title description resultType =
      (.error .unsupportedResultType, []) := by
  unfold generateScore
  rw [if_neg hn, if_neg ha]

/-- C11: for every resultType other than `news` and `article`, `generateScore` raises
`Unsupported resultType. Cannot generate score.` and returns no score; it makes no
request at all, neither the fact-check lookup nor a scoring request. -/
theorem generateScore_unsupported (env : Env) (url title description resultType : JsString)
    (hn : resultType ≠ "news".toList) (ha : resultType ≠ "article".toList) :
    (generateScore env url title description resultType).1 = .error .unsupportedResultType ∧
    (generateScore env url title description resultType).2 = [] ∧
    (generateScore env url title description resultType).2.filter Event.isExternalCall = [] ∧
    (∀ scoreData,
      (generateScore env url title description resultType).1 ≠ .ok scoreData) := by
  rw [generateScore_of_unsupported env url title description resultType hn ha]
  refine ⟨rfl, rfl, rfl, ?_⟩
  intro scoreData h
  cases h

/-- C11 at the resultType `video`, in an environment whose scoring service would answer. -/
theorem generateScore_unsupported_witness :
    (generateScore (answeringEnv 1000 2000 "SCORE:72 SUMMARY:fine".toList)
      "https://a.example".toList "t".toList "d".toList "video".toList).1
        = .error .unsupportedResultType ∧
    (generateScore (answeringEnv 1000 2000 "SCORE:72 SUMMARY:fine".toList)
      "https://a.example".toList "t".toList "d".toList "video".toList).2 = [] := by
  have h := generateScore_unsupported (answeringEnv 1000 2000 "SCORE:72 SUMMARY:fine".toList)
    "https://a.example".toList "t".toList "d".toList "video".toList (by decide) (by decide)
  exact ⟨h.1, h.2.1⟩

/-- The scoring block fails when the scoring call fails (terminal API error or retries
exhausted) and when the response has no text or an empty text. -/
theorem scoreWithPayload_fails (env : Env) (payload : Payload)
    (h : (∃ err, (callApiWithRetry env.fetchAt payload geminiApiUrl 5 2000).1 = .error err) ∨
      (callApiWithRetry env.fetchAt payload geminiApiUrl 5 2000).1 = .ok { text := none } ∨
      (callApiWithRetry env.fetchAt payload geminiApiUrl 5 2000).1 = .ok { text := some [] }) :
    (scoreWithPayload env payload).1 = .error .analysisFailed := by
  unfold scoreWithPayload
  rcases h with ⟨err, h⟩ | h | h
  · simp only [h]
  · simp only [h]
  · simp only [h, List.isEmpty_nil, if_true]

/-- A run that misses the cache and whose `generateScore` fails: the trace is the storage
read, the loading message and the events of `generateScore`; the error ends in the outer
`catch`. -/
theorem analyzeResult_failed (env : Env) (store : Store) (request : Request) (err : JsError)
    (hmiss : getFromCache store env.lookupTime request.url = none)
    (hload : env.loading ≠ .threw)
    (hgen : (generateScore env request.url request.title request.description
      request.resultType).1 = .error err) :
    (analyzeResult env store request).trace =
      [Event.storageGet (CACHE_PREFIX ++ request.url), Event.showLoading request.id] ++
        (generateScore env request.url request.title request.description
          request.resultType).2 ∧
    (analyzeResult env store request).store = store ∧
    (analyzeResult env store request).outcome = .failed err := by
  unfold analyzeResult
  cases hl : env.loading with
  | threw => exact absurd hl hload
  | delivered => simp [hmiss, hgen]
  | undelivered => simp [hmiss, hgen]

/-- The events of `generateScore` hold no storage write and no final message. -/
theorem generateScore_filters (env : Env) (url title description resultType : JsString) :
    (generateScore env url title description resultType).2.filter Event.isStorageSet = [] ∧
    (generateScore env url title description resultType).2.filter Event.isInjectBadge = [] := by
  constructor
  · rw [List.filter_eq_nil_iff]
    intro ev hev
    simp [(generateScore_events env _ _ _ _ ev hev).1]
  · rw [List.filter_eq_nil_iff]
    intro ev hev
    simp [(generateScore_events env _ _ _ _ ev hev).2]

/-- C13: for a request that misses the cache and for which `generateScore` fails, the
error is caught by the outer `catch` of the handler, which ends normally; no
`INJECT_BADGE` is sent, no storage write is attempted and the storage is unchanged. -/
theorem analyzeResult_generation_failure (env : Env) (store : Store) (request : Request)
    (err : JsError)
    (hmiss : getFromCache store env.lookupTime request.url = none)
    (hload : env.loading ≠ .threw)
    (hgen : (generateScore env request.url request.title request.description
      request.resultType).1 = .error err) :
    (analyzeResult env store request).outcome = .failed err ∧
    (analyzeResult env store request).trace.filter Event.isInjectBadge = [] ∧
    (analyzeResult env store request).trace.filter Event.isStorageSet = [] ∧
    (analyzeResult env store request).store = store := by
  obtain ⟨ht, hs, ho⟩ := analyzeResult_failed env store request err hmiss hload hgen
  obtain ⟨hf1, hf2⟩ := generateScore_filters env request.url request.title
    request.description request.resultType
  refine ⟨ho, ?_, ?_, hs⟩
  · rw [ht, List.filter_append, hf2]
    rfl
  · rw [ht, List.filter_append, hf1]
    rfl

/-- C13 at a concrete run: every attempt of the scoring call is answered with HTTP 503. -/
theorem analyzeResult_generation_failure_witness :
    (analyzeResult (unavailableEnv 1000 2000) Store.empty sampleRequest).outcome =
      .failed .analysisFailed ∧
    (analyzeResult (unavailableEnv 1000 2000) Store.empty sampleRequest).trace.filter
      Event.isInjectBadge = [] := by
  have h := analyzeResult_generation_failure (unavailableEnv 1000 2000) Store.empty
    sampleRequest .analysisFailed (by decide) (by decide) rfl
  exact ⟨h.1, h.2.1⟩

/-- The four causes of failure named by the specification make `generateScore` fail: an
unsupported category, a failed scoring call (terminal error or retries exhausted), and a
response without text. -/
theorem generateScore_failure_causes (env : Env) (url title description resultType : JsString)
    (h : (resultType ≠ "news".toList ∧ resultType ≠ "article".toList) ∨
      (∀ payload, ∃ err,
        (callApiWithRetry env.fetchAt payload geminiApiUrl 5 2000).1 = .error err) ∨
      (∀ payload,
        (callApiWithRetry env.fetchAt payload geminiApiUrl 5 2000).1 = .ok { text := none }) ∨
      (∀ payload,
        (callApiWithRetry env.fetchAt payload geminiApiUrl 5 2000).1 = .ok { text := some [] })) :
    ∃ err, (generateScore env url title description resultType).1 = .error err := by
  by_cases hn : resultType = "news".toList
  · have hfail : ∀ payload, (scoreWithPayload env payload).1 = .error .analysisFailed := by
      intro payload
      apply scoreWithPayload_fails
      rcases h with ⟨h1, _⟩ | h | h | h
      · exact absurd hn h1
      · exact Or.inl (h payload)
      · exact Or.inr (Or.inl (h payload))
      · exact Or.inr (Or.inr (h payload))
    refine ⟨.analysisFailed, ?_⟩
    unfold generateScore
    rw [if_pos hn]
    exact hfail _
  · by_cases ha : resultType = "article".toList
    · have hfail : ∀ payload, (scoreWithPayload env payload).1 = .error .analysisFailed := by
        intro payload
        apply scoreWithPayload_fails
        rcases h with ⟨_, h2⟩ | h | h | h
        · exact absurd ha h2
        · exact Or.inl (h payload)
        · exact Or.inr (Or.inl (h payload))
        · exact Or.inr (Or.inr (h payload))
      refine ⟨.analysisFailed, ?_⟩
      unfold generateScore
      rw [if_neg hn, if_pos ha]
      exact hfail _
    · exact ⟨.unsupportedResultType, by
        rw [generateScore_of_unsupported env url title description resultType hn ha]⟩

/-! ## Cache writes -/

/-- The guard of line 388, in the words of the specification. -/
theorem shouldCache_iff (scoreData : ScoreData) :
    shouldCache scoreData = true ↔
      (scoreData.score > 0 ∧
        includes "error".toList (toLowerCase scoreData.summary) = false) := by
  unfold shouldCache
  cases includes "error".toList (toLowerCase scoreData.summary) <;> simp

/-- C12: for a fresh result returned by `generateScore`, the handler calls the storage
write for it if and only if `score > 0` and the lower-cased summary does not contain
`error`.  When the condition holds the write is the only one of the run and, the storage
accepting it, the cache holds the result under the url with the time of the write; when
it does not hold, in particular for score 0, no write is attempted and the storage is
unchanged. -/
theorem analyzeResult_caches_iff (env : Env) (store : Store) (request : Request)
    (scoreData : ScoreData)
    (hmiss : getFromCache store env.lookupTime request.url = none)
    (hload : env.loading ≠ .threw)
    (hgen : (generateScore env request.url request.title request.description
      request.resultType).1 = .ok scoreData) :
    ((analyzeResult env store request).trace.filter Event.isStorageSet ≠ [] ↔
      (scoreData.score > 0 ∧
        includes "error".toList (toLowerCase scoreData.summary) = false)) ∧
    ((scoreData.score > 0 ∧
        includes "error".toList (toLowerCase scoreData.summary) = false) →
      (analyzeResult env store request).trace.filter Event.isStorageSet =
        [Event.storageSet (CACHE_PREFIX ++ request.url)
          { data := scoreData, timestamp := env.saveTime }] ∧
      (env.writeOk = true →
        (analyzeResult env store request).store (CACHE_PREFIX ++ request.url) =
          some { data := scoreData, timestamp := env.saveTime })) ∧
    (¬ (scoreData.score > 0 ∧
        includes "error".toList (toLowerCase scoreData.summary) = false) →
      (analyzeResult env store request).store = store) ∧
    (scoreData.score = 0 →
      (analyzeResult env store request).trace.filter Event.isStorageSet = [] ∧
      (analyzeResult env store request).store = store) := by
  have hno : shouldCache scoreData = false →
      (analyzeResult env store request).store = store ∧
      (analyzeResult env store request).trace.filter Event.isStorageSet = [] := by
    intro hc
    apply analyzeResult_no_write
    intro sd hsd
    rw [hgen] at hsd
    cases hsd
    exact hc
  have hyes : shouldCache scoreData = true →
      (analyzeResult env store request).trace.filter Event.isStorageSet =
        [Event.storageSet (CACHE_PREFIX ++ request.url)
          { data := scoreData, timestamp := env.saveTime }] ∧
      (env.writeOk = true →
        (analyzeResult env store request).store (CACHE_PREFIX ++ request.url) =
          some { data := scoreData, timestamp := env.saveTime }) := by
    intro hc
    obtain ⟨hs, ht⟩ := analyzeResult_fresh_saved env store request scoreData hmiss hload hgen hc
    constructor
    · rw [ht]
      simp only [List.filter_append, (generateScore_filters env _ _ _ _).1]
      by_cases hb : env.badge = .threw <;> simp [hb, Event.isStorageSet]
    · intro hw
      rw [hs]
      simp [saveToCache, hw, Store.set]
  refine ⟨?_, ?_, ?_, ?_⟩
  · constructor
    · intro hne
      by_cases hc : shouldCache scoreData = true
      · exact (shouldCache_iff scoreData).1 hc
      · exact absurd (hno (by simpa using hc)).2 hne
    · intro hg
      rw [(hyes ((shouldCache_iff scoreData).2 hg)).1]
      simp
  · intro hg
    exact hyes ((shouldCache_iff scoreData).2 hg)
  · intro hg
    have hc : shouldCache scoreData = false := by
      cases h : shouldCache scoreData
      · rfl
      · exact absurd ((shouldCache_iff scoreData).1 h) hg
    exact (hno hc).1
  · intro h0
    have hc : shouldCache scoreData = false := by
      cases h : shouldCache scoreData
      · rfl
      · have := ((shouldCache_iff scoreData).1 h).1
        omega
    exact ⟨(hno hc).2, (hno hc).1⟩

/-- C12 at two concrete runs: the answer `SCORE:72 SUMMARY:fine` is written to the cache
and the answer `SCORE:0 SUMMARY:fine` is not. -/
theorem analyzeResult_caches_iff_witness :
    (analyzeResult (answeringEnv 1000 2000 "SCORE:72 SUMMARY:fine".toList) Store.empty
      sampleRequest).store "cc_score_https://a.example".toList =
        some { data := { score := 72, summary := "fine".toList }, timestamp := 2000 } ∧
    (analyzeResult (answeringEnv 1000 2000 "SCORE:0 SUMMARY:fine".toList) Store.empty
      sampleRequest).trace.filter Event.isStorageSet = [] := by
  constructor
  · exact ((analyzeResult_caches_iff (answeringEnv 1000 2000 "SCORE:72 SUMMARY:fine".toList)
      Store.empty sampleRequest { score := 72, summary := "fine".toList } (by decide)
      (by decide) rfl).2.1 ⟨by decide, by decide⟩).2 rfl
  · exact ((analyzeResult_caches_iff (answeringEnv 1000 2000 "SCORE:0 SUMMARY:fine".toList)
      Store.empty sampleRequest { score := 0, summary := "fine".toList } (by decide)
      (by decide) rfl).2.2.2 rfl).1

/-- C14: when the storage write succeeds at time `t`, `saveToCache(url, scoreData)` puts
`{data: scoreData, timestamp: t}` under the key of the url, whatever was there, and leaves
every other key, hence the entry of every other url, as it was; `getFromCache(url)` then
returns `scoreData` at every time `t'` with `t' - t < 24h`. -/
theorem saveToCache_overwrites (store : Store) (t : Int) (url : JsString)
    (scoreData : ScoreData) :
    saveToCache store t true url scoreData ("cc_score_".toList ++ url) =
      some { data := scoreData, timestamp := t } ∧
    (∀ key, key ≠ "cc_score_".toList ++ url →
      saveToCache store t true url scoreData key = store key) ∧
    (∀ url', url' ≠ url →
      saveToCache store t true url scoreData ("cc_score_".toList ++ url') =
        store ("cc_score_".toList ++ url')) ∧
    (∀ url' now, url' ≠ url →
      getFromCache (saveToCache store t true url scoreData) now url' =
        getFromCache store now url') ∧
    (∀ t', t' - t < 86400000 →
      getFromCache (saveToCache store t true url scoreData) t' url = some scoreData) := by
  have hkey : ∀ url', url' ≠ url → CACHE_PREFIX ++ url' ≠ CACHE_PREFIX ++ url := by
    intro url' hne h
    exact hne (List.append_cancel_left h)
  have hset : saveToCache store t true url scoreData (CACHE_PREFIX ++ url) =
      some { data := scoreData, timestamp := t } := by
    simp [saveToCache, Store.set]
  have hother : ∀ key, key ≠ CACHE_PREFIX ++ url →
      saveToCache store t true url scoreData key = store key := by
    intro key hne
    simp [saveToCache, Store.set, hne]
  refine ⟨hset, hother, ?_, ?_, ?_⟩
  · intro url' hne
    exact hother _ (hkey url' hne)
  · intro url' now hne
    unfold getFromCache
    simp only [hother _ (hkey url' hne)]
  · intro t' hlt
    exact getFromCache_fresh _ t' url { data := scoreData, timestamp := t } hset hlt

/-- C14 at a concrete store: the entry of `https://a.example` written at time 1000 is
replaced at time 5000 and read back one millisecond before it expires. -/
theorem saveToCache_overwrites_witness :
    getFromCache (saveToCache sampleStore 5000 true "https://a.example".toList
      { score := 40, summary := "new".toList }) 86404999 "https://a.example".toList =
        some { score := 40, summary := "new".toList } :=
  (saveToCache_overwrites sampleStore 5000 "https://a.example".toList
    { score := 40, summary := "new".toList }).2.2.2.2 86404999 (by decide)

/-! ## Backoff caller: success after retries -/

/-- One more failure in front: a request, a wait, and the events of the later
iterations. -/
theorem backoffTrace_succ (modelUrl : JsString) (payload : Payload)
    (delay first failures : Nat) :
    backoffTrace modelUrl payload delay first (failures + 1) =
      Event.apiRequest modelUrl payload :: Event.sleep (delay * 2 ^ first) ::
        backoffTrace modelUrl payload delay (first + 1) failures := by
  simp [backoffTrace, List.range'_succ]

/-- A loop that meets `failures` retryable failures and then a success response with a
readable body returns that body; its events are those of `backoffTrace`. -/
theorem retryLoop_succeeds (fetchAt : Nat → FetchOutcome) (payload : Payload)
    (modelUrl : JsString) (delay : Nat) (failures : Nat) :
    ∀ (remaining i status : Nat) (body : ApiBody),
      (∀ m, m < failures → (fetchAt (i + m)).isRetryableFailure = true) →
      fetchAt (i + failures) = .response status (some body) →
      responseOk status = true → failures < remaining →
      retryLoop fetchAt payload modelUrl delay remaining i =
        (.ok body, backoffTrace modelUrl payload delay i failures) := by
  induction failures with
  | zero =>
    intro remaining i status body _ hs hok hlt
    obtain ⟨r, rfl⟩ : ∃ r, remaining = r + 1 := ⟨remaining - 1, by omega⟩
    simp only [Nat.add_zero] at hs
    simp [retryLoop, hs, tryAttempt, hok, backoffTrace]
  | succ j ih =>
    intro remaining i status body hfail hs hok hlt
    obtain ⟨r, rfl⟩ : ∃ r, remaining = r + 1 := ⟨remaining - 1, by omega⟩
    have h0 : (fetchAt i).isRetryableFailure = true := by
      have := hfail 0 (by omega)
      simpa using this
    have hnext := ih r (i + 1) status body
      (fun m hm => by
        have := hfail (m + 1) (by omega)
        rwa [show i + (m + 1) = i + 1 + m by omega] at this)
      (by rwa [show i + (j + 1) = i + 1 + j by omega] at hs) hok (by omega)
    rw [retryLoop_retryable _ _ _ _ _ _ h0, hnext, backoffTrace_succ]

/-- The requests of `backoffTrace` number one more than the failures, and its waits are
`delay * 2 ^ i` for the failed iterations, in order. -/
theorem backoffTrace_counts (modelUrl : JsString) (payload : Payload)
    (delay first failures : Nat) :
    ((backoffTrace modelUrl payload delay first failures).filter
      Event.isApiRequest).length = failures + 1 ∧
    sleeps (backoffTrace modelUrl payload delay first failures) =
      (List.range' first failures).map (fun i => delay * 2 ^ i) ∧
    (backoffTrace modelUrl payload delay first failures).getLast? =
      some (Event.apiRequest modelUrl payload) := by
  refine ⟨?_, ?_, ?_⟩
  · induction failures generalizing first with
    | zero => simp [backoffTrace, Event.isApiRequest]
    | succ j ih =>
      rw [backoffTrace_succ]
      simp only [List.filter_cons, Event.isApiRequest, if_true, Bool.false_eq_true, if_false,
        List.length_cons, ih (first + 1)]
  · induction failures generalizing first with
    | zero => simp [backoffTrace, sleeps]
    | succ j ih =>
      rw [backoffTrace_succ, List.range'_succ, List.map_cons]
      simp only [sleeps, ih (first + 1)]
  · simp [backoffTrace]

/-- The loop makes at most `remaining` requests, whatever the attempts meet. -/
theorem retryLoop_requests_le (fetchAt : Nat → FetchOutcome) (payload : Payload)
    (modelUrl : JsString) (delay remaining i : Nat) :
    ((retryLoop fetchAt payload modelUrl delay remaining i).2.filter
      Event.isApiRequest).length ≤ remaining := by
  induction remaining generalizing i with
  | zero => simp [retryLoop]
  | succ n ih =>
    have hn := ih (i + 1)
    unfold retryLoop
    cases ht : tryAttempt (fetchAt i) with
    | returned json => simp [Event.isApiRequest]
    | slept =>
      simp only [List.filter_cons, Event.isApiRequest, if_true, Bool.false_eq_true, if_false,
        List.length_cons]
      omega
    | threw error =>
      cases ha : error.isApiError with
      | true => simp [ha, Event.isApiRequest]
      | false =>
        simp only [ha, Bool.false_eq_true, if_false, List.filter_cons, Event.isApiRequest,
          if_true, List.length_cons]
        omega

/-- For every `maxRetries`, `delay` and `k` with `1 ≤ k ≤ maxRetries`, when the first
`k - 1` attempts meet a retryable failure (network exception, HTTP 429 or HTTP 500 and
above) and attempt `k` gets a success response with a readable body, the call returns
that body; its events are `k - 1` times a request followed by a wait, then the request
that succeeds: exactly `k` requests, waits of `delay * 2 ^ i` for `i = 0 .. k - 2` in
that order, nothing after the successful request.  Whatever the attempts meet, at most
`maxRetries` requests are made. -/
theorem callApiWithRetry_succeeds_at (fetchAt : Nat → FetchOutcome) (payload : Payload)
    (modelUrl : JsString) (maxRetries delay k status : Nat) (body : ApiBody)
    (hk1 : 1 ≤ k) (hk : k ≤ maxRetries)
    (hfail : ∀ i, i < k - 1 → (fetchAt i).isRetryableFailure = true)
    (hsucc : fetchAt (k - 1) = .response status (some body))
    (hok : responseOk status = true) :
    (callApiWithRetry fetchAt payload modelUrl maxRetries delay).1 = .ok body ∧
    (callApiWithRetry fetchAt payload modelUrl maxRetries delay).2 =
      (List.range (k - 1)).flatMap
          (fun i => [Event.apiRequest modelUrl payload, Event.sleep (delay * 2 ^ i)]) ++
        [Event.apiRequest modelUrl payload] ∧
    ((callApiWithRetry fetchAt payload modelUrl maxRetries delay).2.filter
      Event.isApiRequest).length = k ∧
    sleeps (callApiWithRetry fetchAt payload modelUrl maxRetries delay).2 =
      (List.range (k - 1)).map (fun i => delay * 2 ^ i) ∧
    (callApiWithRetry fetchAt payload modelUrl maxRetries delay).2.getLast? =
      some (Event.apiRequest modelUrl payload) ∧
    (∀ fetchAt' : Nat → FetchOutcome,
      ((callApiWithRetry fetchAt' payload modelUrl maxRetries delay).2.filter
        Event.isApiRequest).length ≤ maxRetries) := by
  have hrun : callApiWithRetry fetchAt payload modelUrl maxRetries delay =
      (.ok body, backoffTrace modelUrl payload delay 0 (k - 1)) := by
    unfold callApiWithRetry
    exact retryLoop_succeeds fetchAt payload modelUrl delay (k - 1) maxRetries 0 status body
      (fun m hm => by simpa using hfail m hm) (by simpa using hsucc) hok (by omega)
  obtain ⟨hc, hs, hl⟩ := backoffTrace_counts modelUrl payload delay 0 (k - 1)
  rw [hrun]
  refine ⟨rfl, ?_, ?_, ?_, hl, ?_⟩
  · simp [backoffTrace, List.range_eq_range']
  · show ((backoffTrace modelUrl payload delay 0 (k - 1)).filter Event.isApiRequest).length = k
    rw [hc]
    omega
  · show sleeps (backoffTrace modelUrl payload delay 0 (k - 1)) = _
    rw [hs, List.range_eq_range']
  · intro fetchAt'
    exact retryLoop_requests_le fetchAt' payload modelUrl delay maxRetries 0

/-- A concrete call: HTTP 429, then a network exception, then HTTP 200. -/
theorem callApiWithRetry_succeeds_at_witness :
    callApiWithRetry (recoveringEnv "SCORE:72 SUMMARY:fine".toList).fetchAt samplePayload
      geminiApiUrl 5 2000 =
      (.ok { text := some "SCORE:72 SUMMARY:fine".toList },
        [ Event.apiRequest geminiApiUrl samplePayload, Event.sleep 2000,
          Event.apiRequest geminiApiUrl samplePayload, Event.sleep 4000,
          Event.apiRequest geminiApiUrl samplePayload ]) := by
  have h := callApiWithRetry_succeeds_at
    (recoveringEnv "SCORE:72 SUMMARY:fine".toList).fetchAt samplePayload geminiApiUrl 5 2000 3
    200 { text := some "SCORE:72 SUMMARY:fine".toList } (by decide) (by decide)
    (fun i hi => by
      have : i = 0 ∨ i = 1 := by omega
      rcases this with rfl | rfl <;> rfl)
    rfl rfl
  exact Prod.ext h.1 h.2.1

/-- C15: a success response whose body `response.json()` cannot read is not returned
from: line 70 raises into the `catch`, which waits and retries.  When the first attempt
is answered with HTTP 200 and a body that is not JSON and the second with HTTP 200 and a
readable body, the call makes two requests and a wait of 2000 ms and returns the second
body, where one request and no wait are expected for `k = 1`; when every answer is
HTTP 204 without a body, five requests are made and the call ends with the
retries-exhausted error. -/
theorem callApiWithRetry_unreadable_success_retried :
    responseOk 200 = true ∧ responseOk 204 = true ∧
    callApiWithRetry (unreadableThenReadable "SCORE:72 SUMMARY:fine".toList) samplePayload
      geminiApiUrl 5 2000 =
      (.ok { text := some "SCORE:72 SUMMARY:fine".toList },
        [ Event.apiRequest geminiApiUrl samplePayload, Event.sleep 2000,
          Event.apiRequest geminiApiUrl samplePayload ]) ∧
    (callApiWithRetry (fun _ => FetchOutcome.response 204 none) samplePayload geminiApiUrl
      5 2000).1 = .error .apiCriticalError ∧
    ((callApiWithRetry (fun _ => FetchOutcome.response 204 none) samplePayload geminiApiUrl
      5 2000).2.filter Event.isApiRequest).length = 5 := by
  refine ⟨by decide, by decide, rfl, rfl, by decide⟩

/-! ## Cache invariant -/

/-- The score returned by the parsing block lies between 0 and 100. -/
theorem parseResponse_score_bounds (jsonParse : JsString → Bool) (text : JsString) :
    0 ≤ (parseResponse jsonParse text).1.score ∧
    (parseResponse jsonParse text).1.score ≤ 100 := by
  unfold parseResponse
  dsimp only
  split
  · dsimp only
    omega
  · simp [formatErrorResult]

/-- A score returned by the scoring block lies between 0 and 100. -/
theorem scoreWithPayload_score_bounds (env : Env) (payload : Payload) (scoreData : ScoreData)
    (h : (scoreWithPayload env payload).1 = .ok scoreData) :
    0 ≤ scoreData.score ∧ scoreData.score ≤ 100 := by
  unfold scoreWithPayload at h
  dsimp only at h
  split at h
  · cases h
  · split at h
    · cases h
    · split at h
      · cases h
      · simp only [Except.ok.injEq] at h
        rw [← h]
        exact parseResponse_score_bounds _ _

/-- A score returned by `generateScore` lies between 0 and 100. -/
theorem generateScore_score_bounds (env : Env) (url title description resultType : JsString)
    (scoreData : ScoreData)
    (h : (generateScore env url title description resultType).1 = .ok scoreData) :
    0 ≤ scoreData.score ∧ scoreData.score ≤ 100 := by
  unfold generateScore at h
  by_cases hn : resultType = "news".toList
  · rw [if_pos hn] at h
    exact scoreWithPayload_score_bounds env _ scoreData h
  · rw [if_neg hn] at h
    by_cases ha : resultType = "article".toList
    · rw [if_pos ha] at h
      exact scoreWithPayload_score_bounds env _ scoreData h
    · rw [if_neg ha] at h
      cases h

/-- What `getFromCache` returns is the data of the entry stored under the key. -/
theorem getFromCache_some (store : Store) (now : Int) (url : JsString) (scoreData : ScoreData)
    (h : getFromCache store now url = some scoreData) :
    ∃ entry, store (CACHE_PREFIX ++ url) = some entry ∧ entry.data = scoreData := by
  unfold getFromCache at h
  dsimp only at h
  cases he : store (CACHE_PREFIX ++ url) with
  | none => simp [he] at h
  | some entry =>
    simp only [he] at h
    split at h
    · exact ⟨entry, rfl, by simpa using h⟩
    · cases h

/-- A run that misses the cache and whose fresh result does not pass the guard of line
388: the storage is unchanged and the trace is the storage read, the loading message, the
events of `generateScore` and the final message. -/
theorem analyzeResult_fresh_unsaved (env : Env) (store : Store) (request : Request)
    (scoreData : ScoreData)
    (hmiss : getFromCache store env.lookupTime request.url = none)
    (hload : env.loading ≠ .threw)
    (hgen : (generateScore env request.url request.title request.description
      request.resultType).1 = .ok scoreData)
    (hcache : shouldCache scoreData = false) :
    (analyzeResult env store request).store = store ∧
    (analyzeResult env store request).trace =
      [Event.storageGet (CACHE_PREFIX ++ request.url), Event.showLoading request.id] ++
        (generateScore env request.url request.title request.description
          request.resultType).2 ++
        (if env.badge = .threw then []
         else [Event.injectBadge request.id scoreData.score scoreData.summary
           (createBadgeSvg scoreData.score)]) := by
  unfold analyzeResult
  cases hl : env.loading with
  | threw => exact absurd hl hload
  | delivered =>
    simp only [hmiss, hgen, hcache, Bool.false_eq_true, if_false, sendFinal_store,
      sendFinal_trace]
    simp
  | undelivered =>
    simp only [hmiss, hgen, hcache, Bool.false_eq_true, if_false, sendFinal_store,
      sendFinal_trace]
    simp

/-- The final message of a run, when one is sent, carries the score of the data handed to
the final step. -/
theorem mem_final_part (env : Env) (id id' : JsString) (scoreData : ScoreData) (score : Int)
    (summary : JsString) (badge : Badge)
    (h : Event.injectBadge id' score summary badge ∈
      (if env.badge = .threw then []
       else [Event.injectBadge id scoreData.score scoreData.summary
         (createBadgeSvg scoreData.score)])) :
    score = scoreData.score := by
  by_cases hb : env.badge = .threw
  · simp [hb] at h
  · simp only [hb, if_false, List.mem_singleton, Event.injectBadge.injEq] at h
    exact h.2.1

/-- One run keeps the cache invariant, and the score of the final message it sends lies
between 0 and 100. -/
theorem analyzeResult_preserves (env : Env) (store : Store) (request : Request)
    (hinv : CacheInvariant store) :
    CacheInvariant (analyzeResult env store request).store ∧
    (∀ id score summary badge,
      Event.injectBadge id score summary badge ∈ (analyzeResult env store request).trace →
      0 ≤ score ∧ score ≤ 100) := by
  have hgenev : ∀ id score summary badge,
      Event.injectBadge id score summary badge ∉
        (generateScore env request.url request.title request.description
          request.resultType).2 := by
    intro id score summary badge hmem
    have := (generateScore_events env _ _ _ _ _ hmem).2
    simp [Event.isInjectBadge] at this
  cases hget : getFromCache store env.lookupTime request.url with
  | some cached =>
    obtain ⟨entry, he, hd⟩ := getFromCache_some _ _ _ _ hget
    have hs : (analyzeResult env store request).store = store := by
      simp only [analyzeResult, hget, sendFinal_store]
    have ht : (analyzeResult env store request).trace =
        [Event.storageGet (CACHE_PREFIX ++ request.url)] ++
          (if env.badge = .threw then []
           else [Event.injectBadge request.id cached.score cached.summary
             (createBadgeSvg cached.score)]) := by
      simp only [analyzeResult, hget, sendFinal_trace]
    rw [hs, ht]
    refine ⟨hinv, ?_⟩
    intro id score summary badge hmem
    rw [List.mem_append] at hmem
    rcases hmem with h | h
    · simp at h
    · have hsc := mem_final_part env _ _ _ _ _ _ h
      have hb := hinv _ entry he
      rw [hd] at hb
      omega
  | none =>
    by_cases hl : env.loading = .threw
    · obtain ⟨ht, hs, _⟩ := analyzeResult_loading_threw env store request hget hl
      rw [hs, ht]
      refine ⟨hinv, ?_⟩
      intro id score summary badge hmem
      simp at hmem
    · cases hg : (generateScore env request.url request.title request.description
          request.resultType).1 with
      | error err =>
        obtain ⟨ht, hs, _⟩ := analyzeResult_failed env store request err hget hl hg
        rw [hs, ht]
        refine ⟨hinv, ?_⟩
        intro id score summary badge hmem
        rw [List.mem_append] at hmem
        rcases hmem with h | h
        · simp at h
        · exact absurd h (hgenev _ _ _ _)
      | ok scoreData =>
        have hbounds := generateScore_score_bounds env _ _ _ _ scoreData hg
        cases hc : shouldCache scoreData with
        | false =>
          obtain ⟨hs, ht⟩ := analyzeResult_fresh_unsaved env store request scoreData hget hl hg hc
          rw [hs, ht]
          refine ⟨hinv, ?_⟩
          intro id score summary badge hmem
          rw [List.mem_append, List.mem_append] at hmem
          rcases hmem with (h | h) | h
          · simp at h
          · exact absurd h (hgenev _ _ _ _)
          · rw [mem_final_part env _ _ _ _ _ _ h]
            exact hbounds
        | true =>
          obtain ⟨hs, ht⟩ := analyzeResult_fresh_saved env store request scoreData hget hl hg hc
          rw [hs, ht]
          constructor
          · intro key entry hentry
            cases hw : env.writeOk with
            | false =>
              simp only [saveToCache, hw, Bool.false_eq_true, if_false] at hentry
              exact hinv key entry hentry
            | true =>
              simp only [saveToCache, hw, if_true, Store.set] at hentry
              by_cases hk : key = CACHE_PREFIX ++ request.url
              · simp only [hk, if_true, Option.some.injEq] at hentry
                rw [← hentry]
                have hguard := (shouldCache_iff scoreData).1 hc
                show 1 ≤ scoreData.score ∧ scoreData.score ≤ 100 ∧
                  includes "error".toList (toLowerCase scoreData.summary) = false
                exact ⟨by have := hguard.1; omega, hbounds.2, hguard.2⟩
              · simp only [hk, if_false] at hentry
                exact hinv key entry hentry
          · intro id score summary badge hmem
            rw [List.mem_append, List.mem_append, List.mem_append] at hmem
            rcases hmem with ((h | h) | h) | h
            · simp at h
            · exact absurd h (hgenev _ _ _ _)
            · simp at h
            · rw [mem_final_part env _ _ _ _ _ _ h]
              exact hbounds

/-- C16: starting from an empty storage, after any sequence of handled `ANALYZE_RESULT`
requests every cache entry holds a score between 1 and 100 and a summary whose lower
case does not contain `error`, and every `INJECT_BADGE` message sent along the way,
served from the cache or freshly computed, carries a score between 0 and 100. -/
theorem cache_invariant (runs : List (Env × Request)) :
    (∀ key entry, (analyzeAll Store.empty runs).1 key = some entry →
      1 ≤ entry.data.score ∧ entry.data.score ≤ 100 ∧
      includes "error".toList (toLowerCase entry.data.summary) = false) ∧
    (∀ id score summary badge,
      Event.injectBadge id score summary badge ∈ (analyzeAll Store.empty runs).2 →
      0 ≤ score ∧ score ≤ 100) := by
  have hgen : ∀ (runs : List (Env × Request)) (store : Store), CacheInvariant store →
      CacheInvariant (analyzeAll store runs).1 ∧
      (∀ id score summary badge,
        Event.injectBadge id score summary badge ∈ (analyzeAll store runs).2 →
        0 ≤ score ∧ score ≤ 100) := by
    intro runs
    induction runs with
    | nil =>
      intro store hinv
      refine ⟨hinv, ?_⟩
      intro id score summary badge hmem
      simp [analyzeAll] at hmem
    | cons run rest ih =>
      intro store hinv
      obtain ⟨env, request⟩ := run
      obtain ⟨h1, h2⟩ := analyzeResult_preserves env store request hinv
      obtain ⟨h3, h4⟩ := ih (analyzeResult env store request).store h1
      refine ⟨h3, ?_⟩
      intro id score summary badge hmem
      simp only [analyzeAll, List.mem_append] at hmem
      rcases hmem with h | h
      · exact h2 _ _ _ _ h
      · exact h4 _ _ _ _ h
  exact hgen runs Store.empty (by intro key entry h; cases h)

/-- C16 at a concrete sequence: a request answered `SCORE:150 SUMMARY:fine`, then the same
request again; the entry written holds the score 100. -/
theorem cache_invariant_witness :
    (analyzeAll Store.empty
      [ (answeringEnv 1000 2000 "SCORE:150 SUMMARY:fine".toList, sampleRequest),
        (answeringEnv 3000 4000 "SCORE:7 SUMMARY:other".toList, sampleRequest) ]).1
      "cc_score_https://a.example".toList =
        some { data := { score := 100, summary := "fine".toList }, timestamp := 2000 } ∧
    (1 : Int) ≤ 100 ∧ (100 : Int) ≤ 100 ∧
    includes "error".toList (toLowerCase "fine".toList) = false :=
  ⟨by decide,
    (cache_invariant
      [ (answeringEnv 1000 2000 "SCORE:150 SUMMARY:fine".toList, sampleRequest),
        (answeringEnv 3000 4000 "SCORE:7 SUMMARY:other".toList, sampleRequest) ]).1
      "cc_score_https://a.example".toList
      { data := { score := 100, summary := "fine".toList }, timestamp := 2000 }
      (by decide)⟩

end InfoRay
